import Mathlib

/-!
Verification of the cmdx command / path / package-manager translation engine.

The Rust sources (src/translator/{os,command_map,engine,path,package_manager}.rs)
are shallowly embedded below: each Rust function becomes a Lean definition of
the same name (namespaced per module where names collide), pure functions stay
pure, and the mutable `result` parameters become explicit state passing.
Rust `String` is modelled by Lean `String`; the few byte-indexed slicings
(`&s[n..]`) are modelled by character-indexed drops, which agrees with the
source because every sliced prefix in the program (drive prefixes, flag rule
sources, fixed literals) is ASCII.  Rust's `to_lowercase`/`to_ascii_uppercase`
are modelled by per-character ASCII case mapping, which agrees on the ASCII
rule-table data the program manipulates.
-/

/-- Decidable equality for `Except`, used to evaluate the fallible translators
on concrete inputs. -/
instance {ε α : Type} [DecidableEq ε] [DecidableEq α] : DecidableEq (Except ε α) := fun x y =>
  match x, y with
  | .ok a, .ok b =>
    if h : a = b then .isTrue (by rw [h]) else .isFalse (fun hc => h (Except.ok.inj hc))
  | .error a, .error b =>
    if h : a = b then .isTrue (by rw [h]) else .isFalse (fun hc => h (Except.error.inj hc))
  | .ok _, .error _ => .isFalse (fun hc => Except.noConfusion hc)
  | .error _, .ok _ => .isFalse (fun hc => Except.noConfusion hc)

/-! ## Modelled Rust string primitives -/

/-- Rust `str::trim`: drop leading and trailing whitespace. -/
def rustTrim (s : String) : String :=
  ⟨((s.data.dropWhile Char.isWhitespace).reverse.dropWhile Char.isWhitespace).reverse⟩

/-- Rust `char::to_lowercase` on the ASCII data of this program. -/
def rustToLower (s : String) : String := ⟨s.data.map Char.toLower⟩

/-- Rust `str::starts_with` for a string pattern. -/
def rustStartsWith (s p : String) : Bool := p.data.isPrefixOf s.data

/-- Rust byte slicing `&s[n..]` on ASCII data: drop the first `n` characters. -/
def rustDrop (s : String) (n : Nat) : String := ⟨s.data.drop n⟩

/-- Rust `str::replace(from: char, to: char-as-str)`. -/
def rustReplaceChar (s : String) (a b : Char) : String :=
  ⟨s.data.map (fun c => if c = a then b else c)⟩

/-- Rust `str::trim_start_matches(c: char)`: repeatedly strip a leading `c`. -/
def rustTrimStartMatches (s : String) (c : Char) : String :=
  ⟨s.data.dropWhile (· = c)⟩

/-- Helper for `split_whitespace`: split a character list on whitespace runs,
dropping empty pieces, with `cur` the piece being accumulated. -/
def splitWsAux : List Char → List Char → List (List Char)
  | [], cur => if cur ≠ [] then [cur] else []
  | c :: rest, cur =>
    if c.isWhitespace then
      (if cur ≠ [] then [cur] else []) ++ splitWsAux rest []
    else splitWsAux rest (cur ++ [c])

/-- Rust `str::split_whitespace`: non-empty maximal runs of non-whitespace. -/
def rustSplitWhitespace (s : String) : List String :=
  (splitWsAux s.data []).map String.mk

/-- Helper for `split(c)`: split a character list at every occurrence of `c`,
keeping empty pieces (Rust `str::split(char)` semantics). -/
def splitCharAux (sep : Char) : List Char → List Char → List (List Char)
  | [], cur => [cur]
  | c :: rest, cur =>
    if c = sep then cur :: splitCharAux sep rest []
    else splitCharAux sep rest (cur ++ [c])

/-- Rust `str::split(c: char)` collected to a vector. -/
def rustSplitChar (s : String) (sep : Char) : List String :=
  (splitCharAux sep s.data []).map String.mk

/-- Rust `s.chars().nth(n)`. -/
def rustNth (s : String) (n : Nat) : Option Char := s.data.get? n

/-- Rust `str::contains(c: char)`. -/
def rustContainsChar (s : String) (c : Char) : Bool := s.data.contains c

/-! ## os.rs — operating-system model -/

/-- Rust `enum Os` from os.rs. -/
inductive Os where
  | Windows | Linux | MacOS | FreeBSD | OpenBSD | NetBSD
  | Solaris | Android | Ios | Unknown
deriving DecidableEq, Repr

/-- Rust `impl fmt::Display for Os`. -/
def Os.display : Os → String
  | .Windows => "Windows"
  | .Linux => "Linux"
  | .MacOS => "macOS"
  | .FreeBSD => "FreeBSD"
  | .OpenBSD => "OpenBSD"
  | .NetBSD => "NetBSD"
  | .Solaris => "Solaris"
  | .Android => "Android"
  | .Ios => "iOS"
  | .Unknown => "Unknown"

/-- Rust `impl FromStr for Os` (`Err` carries the offending string). -/
def Os.from_str (s : String) : Except String Os :=
  let l := rustToLower s
  if l = "windows" ∨ l = "win" ∨ l = "win32" ∨ l = "win64" then .ok .Windows
  else if l = "linux" ∨ l = "gnu/linux" then .ok .Linux
  else if l = "macos" ∨ l = "darwin" ∨ l = "osx" ∨ l = "mac" then .ok .MacOS
  else if l = "freebsd" then .ok .FreeBSD
  else if l = "openbsd" then .ok .OpenBSD
  else if l = "netbsd" then .ok .NetBSD
  else if l = "solaris" ∨ l = "sunos" then .ok .Solaris
  else if l = "android" then .ok .Android
  else if l = "ios" then .ok .Ios
  else .error s

/-- Rust `Os::parse`: `s.parse().ok()`. -/
def Os.parse (s : String) : Option Os := (Os.from_str s).toOption

/-- Rust `Os::is_unix_like`. -/
def Os.is_unix_like : Os → Bool
  | .Linux | .MacOS | .FreeBSD | .OpenBSD | .NetBSD | .Solaris | .Android => true
  | _ => false

/-- Rust `Os::is_bsd`. -/
def Os.is_bsd : Os → Bool
  | .FreeBSD | .OpenBSD | .NetBSD | .MacOS => true
  | _ => false

/-! ## path.rs — path translation -/

/-- Rust `struct PathTranslation`. -/
structure PathTranslation where
  path : String
  original : String
  from_os : Os
  to_os : Os
  drive_translated : Bool
  warnings : List String
deriving DecidableEq, Repr

/-- Rust `PathTranslation::new`. -/
def PathTranslation.new (path original : String) (from_os to_os : Os) : PathTranslation :=
  { path := path, original := original, from_os := from_os, to_os := to_os
    drive_translated := false, warnings := [] }

/-- Rust `enum PathError`. -/
inductive PathError where
  | EmptyPath
  | InvalidPath (msg : String)
deriving DecidableEq, Repr

/-- Rust `get_drive_mapping`: lowercase WSL-style mount point for a drive letter. -/
def get_drive_mapping (drive : Char) : String := "/mnt/" ++ ⟨[drive.toLower]⟩

/-- Rust `is_windows_path`. -/
def is_windows_path (path : String) : Bool :=
  (match path.data with
   | c0 :: c1 :: _ => c0.isAlpha && c1 = ':'
   | _ => false)
  || rustStartsWith path "\\\\"
  || rustContainsChar path '\\'

/-- Rust `windows_to_unix`: translate a Windows path to Unix form, threading the
mutable `result` explicitly. -/
def windows_to_unix (path : String) (result : PathTranslation) :
    String × PathTranslation :=
  let unix_path := path
  -- Handle drive letter (C:\Users -> /mnt/c/Users)
  let (unix_path, result) :=
    match path.data with
    | c0 :: c1 :: _ =>
      if c0.isAlpha ∧ c1 = ':' then
        (get_drive_mapping c0 ++ rustDrop unix_path 2,
         { result with drive_translated := true })
      else (unix_path, result)
    | _ => (unix_path, result)
  -- Handle UNC paths (\\server\share -> //server/share)
  let (unix_path, result) :=
    if rustStartsWith unix_path "\\\\" then
      ("//" ++ rustDrop unix_path 2,
       { result with warnings :=
           result.warnings ++ ["UNC path converted to network path format"] })
    else (unix_path, result)
  -- Convert backslashes to forward slashes
  let unix_path := rustReplaceChar unix_path '\\' '/'
  -- Normalize multiple slashes (except leading // for network paths)
  let unix_path :=
    if rustStartsWith unix_path "//" then
      "//" ++ String.intercalate "/"
        ((rustSplitChar (rustDrop unix_path 2) '/').filter (· ≠ ""))
    else
      let parts := (rustSplitChar unix_path '/').filter (· ≠ "")
      if rustStartsWith path "/" ∨ rustStartsWith path "\\" ∨ rustNth path 1 = some ':' then
        "/" ++ String.intercalate "/" parts
      else String.intercalate "/" parts
  (unix_path, result)

/-- Rust `unix_to_windows`: translate a Unix path to Windows form. -/
def unix_to_windows (path : String) (result : PathTranslation) :
    String × PathTranslation :=
  let windows_path := path
  let (windows_path, result) :=
    -- Handle /mnt/X/ paths (convert to X:\)
    if rustStartsWith windows_path "/mnt/" ∧ windows_path.data.length ≥ 6 then
      match rustNth windows_path 5 with
      | some drive =>
        if drive.isAlpha then
          -- Check if it is followed by / or end of string
          match rustNth windows_path 6 with
          | none =>
            ((⟨[drive.toUpper]⟩ : String) ++ ":" ++ rustDrop windows_path 6,
             { result with drive_translated := true })
          | some c =>
            if c = '/' then
              ((⟨[drive.toUpper]⟩ : String) ++ ":" ++ rustDrop windows_path 6,
               { result with drive_translated := true })
            else (windows_path, result)
        else (windows_path, result)
      | none => (windows_path, result)
    -- Handle /home/username -> C:\Users\username (common mapping)
    else if rustStartsWith windows_path "/home/" then
      ("C:\\Users" ++ rustDrop windows_path 5,
       { result with
         drive_translated := true
         warnings := result.warnings ++ ["/home mapped to C:\\Users"] })
    -- Handle ~ (home directory)
    else if rustStartsWith windows_path "~/" then
      ("%USERPROFILE%" ++ rustDrop windows_path 1,
       { result with warnings :=
           result.warnings ++ ["~ translated to %USERPROFILE%"] })
    else if windows_path = "~" then
      ("%USERPROFILE%",
       { result with warnings :=
           result.warnings ++ ["~ translated to %USERPROFILE%"] })
    -- Handle root paths: generic Unix root -> C:\
    else if rustStartsWith windows_path "/" ∧ ¬ rustStartsWith windows_path "//" then
      ("C:" ++ windows_path,
       { result with
         drive_translated := true
         warnings := result.warnings ++ ["Root path mapped to C: drive"] })
    -- Handle network paths (//server/share -> \\server\share)
    else if rustStartsWith windows_path "//" then
      ("\\\\" ++ rustDrop windows_path 2, result)
    else (windows_path, result)
  -- Convert forward slashes to backslashes
  let windows_path := rustReplaceChar windows_path '/' '\\'
  -- Normalize multiple backslashes (but keep UNC prefix)
  let windows_path :=
    if rustStartsWith windows_path "\\\\" then
      "\\\\" ++ String.intercalate "\\"
        ((rustSplitChar (rustDrop windows_path 2) '\\').filter (· ≠ ""))
    else
      String.intercalate "\\" ((rustSplitChar windows_path '\\').filter (· ≠ ""))
  (windows_path, result)

/-- Rust `translate_path`. -/
def translate_path (path : String) (from_os to_os : Os) :
    Except PathError PathTranslation :=
  if rustTrim path = "" then .error .EmptyPath
  else
    let path := rustTrim path
    -- Same OS - just return normalized path
    if from_os = to_os then
      .ok (PathTranslation.new path path from_os to_os)
    else
      let result := PathTranslation.new "" path from_os to_os
      -- Determine translation direction based on OS types
      let (translated, result) :=
        if from_os = .Windows ∧ to_os.is_unix_like then
          windows_to_unix path result
        else if from_os.is_unix_like ∧ to_os = .Windows then
          unix_to_windows path result
        else if from_os.is_unix_like ∧ to_os.is_unix_like then
          (path, result)
        else if is_windows_path path then
          windows_to_unix path result
        else
          unix_to_windows path result
      .ok { result with path := translated }

/-! ## command_map.rs — rule table -/

/-- Rust `struct FlagMapping`. -/
structure FlagMapping where
  source : String
  target : String
  description : Option String
deriving DecidableEq, Repr

/-- Rust `FlagMapping::new`. -/
def FlagMapping.new (source target : String) : FlagMapping :=
  { source := source, target := target, description := none }

/-- Rust `FlagMapping::with_description`. -/
def FlagMapping.with_description (source target description : String) : FlagMapping :=
  { source := source, target := target, description := some description }

/-- Rust `struct CommandMapping`. -/
structure CommandMapping where
  source_cmd : String
  target_cmd : String
  flag_mappings : List FlagMapping
  preserve_unmapped_flags : Bool
  notes : Option String
deriving DecidableEq, Repr

/-- Rust `CommandMapping::new` (unmapped flags preserved by default, no notes). -/
def CommandMapping.new (source_cmd target_cmd : String) : CommandMapping :=
  { source_cmd := source_cmd, target_cmd := target_cmd, flag_mappings := []
    preserve_unmapped_flags := true, notes := none }

/-- Rust `CommandMapping::with_flags`. -/
def CommandMapping.with_flags (m : CommandMapping) (flags : List FlagMapping) :
    CommandMapping :=
  { m with flag_mappings := flags }

/-- Rust `struct MappingKey`. -/
structure MappingKey where
  command : String
  from_os : Os
  to_os : Os
deriving DecidableEq, Repr

/-- Rust `MappingKey::new` (lowercases the command). -/
def MappingKey.new (command : String) (from_os to_os : Os) : MappingKey :=
  { command := rustToLower command, from_os := from_os, to_os := to_os }

/-- Rust `COMMAND_MAPPINGS`: the global rule table, modelled as an association list
(the Rust `HashMap` is built once from unique keys, so keyed lookup and
whole-table scans agree with this list). The `for bsd in [FreeBSD, OpenBSD,
NetBSD]` loop at the end of the Rust initializer is expanded entry-wise. -/
def COMMAND_MAPPINGS : List (MappingKey × CommandMapping) := [
  (MappingKey.new "dir" .Windows .Linux,
    (CommandMapping.new "dir" "ls").with_flags
     [FlagMapping.with_description "/w" "-C" "Wide list format",
      FlagMapping.with_description "/d" "-C" "Wide list format (same as /w)",
      FlagMapping.with_description "/s" "-R" "Recursive listing",
      FlagMapping.with_description "/b" "-1" "Bare format (names only)",
      FlagMapping.with_description "/a" "-la" "All files including hidden",
      FlagMapping.with_description "/a:h" "-a" "Hidden files only",
      FlagMapping.with_description "/a:d" "-d */" "Directories only",
      FlagMapping.with_description "/a:r" "-l" "Read-only files",
      FlagMapping.with_description "/a:-h" "" "Not hidden",
      FlagMapping.with_description "/o" "" "Sorted",
      FlagMapping.with_description "/o:n" "--sort=name" "Sort by name",
      FlagMapping.with_description "/o:-n" "--sort=name -r" "Sort by name reversed",
      FlagMapping.with_description "/o:s" "--sort=size" "Sort by size",
      FlagMapping.with_description "/o:-s" "--sort=size -r" "Sort by size reversed",
      FlagMapping.with_description "/o:d" "--sort=time" "Sort by date",
      FlagMapping.with_description "/o:-d" "--sort=time -r" "Sort by date reversed",
      FlagMapping.with_description "/o:e" "--sort=extension" "Sort by extension",
      FlagMapping.with_description "/o:g" "" "Group directories first",
      FlagMapping.with_description "/t:c" "--time=ctime" "Use creation time",
      FlagMapping.with_description "/t:a" "--time=atime" "Use access time",
      FlagMapping.with_description "/t:w" "" "Use write time (default)",
      FlagMapping.with_description "/p" "" "Pause (not directly supported)",
      FlagMapping.with_description "/q" "-l" "Show owner",
      FlagMapping.with_description "/n" "-1" "New long list format",
      FlagMapping.with_description "/x" "-lX" "Show short names",
      FlagMapping.with_description "/4" "" "Four-digit years",
      FlagMapping.with_description "/l" "-l" "Lowercase",
      FlagMapping.with_description "/c" "--block-size=1" "Thousand separator"]),
  (MappingKey.new "dir" .Windows .MacOS,
    (CommandMapping.new "dir" "ls").with_flags
     [FlagMapping.with_description "/w" "-C" "Wide list format",
      FlagMapping.with_description "/s" "-R" "Recursive listing",
      FlagMapping.with_description "/b" "-1" "Bare format (names only)",
      FlagMapping.with_description "/a" "-la" "All files including hidden",
      FlagMapping.with_description "/a:h" "-a" "Hidden files",
      FlagMapping.with_description "/o:n" "" "Sort by name (default)",
      FlagMapping.with_description "/o:s" "-S" "Sort by size",
      FlagMapping.with_description "/o:d" "-t" "Sort by time",
      FlagMapping.with_description "/q" "-l" "Show owner"]),
  (MappingKey.new "copy" .Windows .Linux,
    (CommandMapping.new "copy" "cp").with_flags
     [FlagMapping.with_description "/y" "-f" "Force overwrite without prompting",
      FlagMapping.with_description "/-y" "-i" "Prompt before overwrite",
      FlagMapping.with_description "/v" "-v" "Verbose",
      FlagMapping.with_description "/z" "" "Network resilient mode (N/A)",
      FlagMapping.with_description "/a" "" "ASCII mode (N/A in Unix)",
      FlagMapping.with_description "/b" "" "Binary mode (default in Unix)",
      FlagMapping.with_description "/d" "" "Allow decrypted destination",
      FlagMapping.with_description "/n" "" "Use short filename",
      FlagMapping.with_description "/l" "-s" "Create symbolic link"]),
  (MappingKey.new "copy" .Windows .MacOS,
    (CommandMapping.new "copy" "cp").with_flags
     [FlagMapping.with_description "/y" "-f" "Force overwrite",
      FlagMapping.with_description "/-y" "-i" "Interactive",
      FlagMapping.with_description "/v" "-v" "Verbose"]),
  (MappingKey.new "xcopy" .Windows .Linux,
    (CommandMapping.new "xcopy" "cp -r").with_flags
     [FlagMapping.with_description "/s" "" "Copy subdirs (implied by -r)",
      FlagMapping.with_description "/e" "" "Copy empty dirs too (implied by -r)",
      FlagMapping.with_description "/y" "-f" "Force overwrite",
      FlagMapping.with_description "/-y" "-i" "Prompt before overwrite",
      FlagMapping.with_description "/i" "" "Assume destination is directory",
      FlagMapping.with_description "/q" "" "Quiet mode",
      FlagMapping.with_description "/f" "-v" "Display full source/dest names",
      FlagMapping.with_description "/l" "-n" "List files (dry run)",
      FlagMapping.with_description "/h" "" "Copy hidden and system files",
      FlagMapping.with_description "/r" "" "Overwrite read-only files",
      FlagMapping.with_description "/t" "" "Create directory structure only",
      FlagMapping.with_description "/u" "-u" "Update only newer files",
      FlagMapping.with_description "/k" "-p" "Keep attributes",
      FlagMapping.with_description "/n" "" "Copy using short names",
      FlagMapping.with_description "/o" "-p" "Copy ownership and ACL",
      FlagMapping.with_description "/x" "-p" "Copy audit settings",
      FlagMapping.with_description "/v" "" "Verify each file",
      FlagMapping.with_description "/c" "" "Continue on errors",
      FlagMapping.with_description "/g" "" "Copy encrypted files",
      FlagMapping.with_description "/d" "" "Copy only files changed on date",
      FlagMapping.with_description "/a" "" "Archive attribute files only",
      FlagMapping.with_description "/m" "" "Archive files, reset archive attr",
      FlagMapping.with_description "/z" "" "Network resilient mode",
      FlagMapping.with_description "/b" "-a" "Copy symbolic link itself",
      FlagMapping.with_description "/j" "" "Copy using unbuffered I/O"]),
  (MappingKey.new "move" .Windows .Linux,
    (CommandMapping.new "move" "mv").with_flags
     [FlagMapping.with_description "/y" "-f" "Force overwrite without prompting",
      FlagMapping.with_description "/-y" "-i" "Prompt before overwrite"]),
  (MappingKey.new "move" .Windows .MacOS,
    (CommandMapping.new "move" "mv").with_flags
     [FlagMapping.with_description "/y" "-f" "Force overwrite",
      FlagMapping.with_description "/-y" "-i" "Interactive"]),
  (MappingKey.new "del" .Windows .Linux,
    (CommandMapping.new "del" "rm").with_flags
     [FlagMapping.with_description "/s" "-r" "Recursive delete",
      FlagMapping.with_description "/q" "-f" "Quiet mode (no confirmation)",
      FlagMapping.with_description "/f" "-f" "Force delete read-only files",
      FlagMapping.with_description "/p" "-i" "Prompt before each delete",
      FlagMapping.with_description "/a" "" "Delete by attributes",
      FlagMapping.with_description "/a:r" "" "Read-only files",
      FlagMapping.with_description "/a:h" "" "Hidden files",
      FlagMapping.with_description "/a:s" "" "System files",
      FlagMapping.with_description "/a:a" "" "Archive files"]),
  (MappingKey.new "del" .Windows .MacOS,
    (CommandMapping.new "del" "rm").with_flags
     [FlagMapping.with_description "/s" "-r" "Recursive delete",
      FlagMapping.with_description "/q" "-f" "Quiet mode",
      FlagMapping.with_description "/f" "-f" "Force delete",
      FlagMapping.with_description "/p" "-i" "Interactive"]),
  (MappingKey.new "erase" .Windows .Linux,
    (CommandMapping.new "erase" "rm").with_flags
     [FlagMapping.with_description "/s" "-r" "Recursive",
      FlagMapping.with_description "/q" "-f" "Quiet",
      FlagMapping.with_description "/f" "-f" "Force",
      FlagMapping.with_description "/p" "-i" "Interactive"]),
  (MappingKey.new "rmdir" .Windows .Linux,
    (CommandMapping.new "rmdir" "rm -r").with_flags
     [FlagMapping.with_description "/s" "" "Recursive (implied by -r)",
      FlagMapping.with_description "/q" "-f" "Quiet mode"]),
  (MappingKey.new "rmdir" .Windows .MacOS,
    (CommandMapping.new "rmdir" "rm -r").with_flags
     [FlagMapping.with_description "/s" "" "Recursive (implied)",
      FlagMapping.with_description "/q" "-f" "Quiet mode"]),
  (MappingKey.new "rd" .Windows .Linux,
    (CommandMapping.new "rd" "rm -r").with_flags
     [FlagMapping.with_description "/s" "" "Recursive (implied)",
      FlagMapping.with_description "/q" "-f" "Quiet"]),
  (MappingKey.new "mkdir" .Windows .Linux,
    (CommandMapping.new "mkdir" "mkdir").with_flags
     [FlagMapping.with_description "" "-p" "Create parent directories automatically"]),
  (MappingKey.new "mkdir" .Windows .MacOS,
    (CommandMapping.new "mkdir" "mkdir").with_flags
     [FlagMapping.with_description "" "-p" "Create parent directories"]),
  (MappingKey.new "md" .Windows .Linux,
    CommandMapping.new "md" "mkdir -p"),
  (MappingKey.new "type" .Windows .Linux,
    CommandMapping.new "type" "cat"),
  (MappingKey.new "type" .Windows .MacOS,
    CommandMapping.new "type" "cat"),
  (MappingKey.new "cls" .Windows .Linux,
    CommandMapping.new "cls" "clear"),
  (MappingKey.new "cls" .Windows .MacOS,
    CommandMapping.new "cls" "clear"),
  (MappingKey.new "echo" .Windows .Linux,
    CommandMapping.new "echo" "echo"),
  (MappingKey.new "findstr" .Windows .Linux,
    (CommandMapping.new "findstr" "grep").with_flags
     [FlagMapping.with_description "/i" "-i" "Case insensitive",
      FlagMapping.with_description "/s" "-r" "Recursive",
      FlagMapping.with_description "/n" "-n" "Line numbers",
      FlagMapping.with_description "/v" "-v" "Invert match",
      FlagMapping.with_description "/c:" "-c" "Count matches",
      FlagMapping.with_description "/r" "-E" "Regular expressions"]),
  (MappingKey.new "find" .Windows .Linux,
    (CommandMapping.new "find" "grep").with_flags
     [FlagMapping.with_description "/i" "-i" "Case insensitive",
      FlagMapping.with_description "/v" "-v" "Invert match",
      FlagMapping.with_description "/c" "-c" "Count lines",
      FlagMapping.with_description "/n" "-n" "Line numbers"]),
  (MappingKey.new "tasklist" .Windows .Linux,
    CommandMapping.new "tasklist" "ps aux"),
  (MappingKey.new "tasklist" .Windows .MacOS,
    CommandMapping.new "tasklist" "ps aux"),
  (MappingKey.new "taskkill" .Windows .Linux,
    (CommandMapping.new "taskkill" "kill").with_flags
     [FlagMapping.with_description "/f" "-9" "Force kill",
      FlagMapping.with_description "/pid" "" "Process ID (use directly)",
      FlagMapping.with_description "/im" "-pkill " "Image name -> use pkill"]),
  (MappingKey.new "ipconfig" .Windows .Linux,
    (CommandMapping.new "ipconfig" "ip addr").with_flags
     [FlagMapping.with_description "/all" "show" "Show all info",
      FlagMapping.with_description "/release" "" "Release DHCP",
      FlagMapping.with_description "/renew" "" "Renew DHCP"]),
  (MappingKey.new "ipconfig" .Windows .MacOS,
    CommandMapping.new "ipconfig" "ifconfig"),
  (MappingKey.new "systeminfo" .Windows .Linux,
    CommandMapping.new "systeminfo" "uname -a && cat /etc/os-release"),
  (MappingKey.new "hostname" .Windows .Linux,
    CommandMapping.new "hostname" "hostname"),
  (MappingKey.new "whoami" .Windows .Linux,
    CommandMapping.new "whoami" "whoami"),
  (MappingKey.new "set" .Windows .Linux,
    CommandMapping.new "set" "env"),
  (MappingKey.new "attrib" .Windows .Linux,
    CommandMapping.new "attrib" "chmod"),
  (MappingKey.new "fc" .Windows .Linux,
    (CommandMapping.new "fc" "diff").with_flags
     [FlagMapping.with_description "/b" "" "Binary compare",
      FlagMapping.with_description "/c" "-i" "Ignore case",
      FlagMapping.with_description "/n" "-n" "Show line numbers",
      FlagMapping.with_description "/w" "-w" "Ignore whitespace"]),
  (MappingKey.new "more" .Windows .Linux,
    CommandMapping.new "more" "less"),
  (MappingKey.new "ren" .Windows .Linux,
    CommandMapping.new "ren" "mv"),
  (MappingKey.new "rename" .Windows .Linux,
    CommandMapping.new "rename" "mv"),
  (MappingKey.new "tree" .Windows .Linux,
    (CommandMapping.new "tree" "tree").with_flags
     [FlagMapping.with_description "/f" "" "Show files (default in Linux)",
      FlagMapping.with_description "/a" "--charset=ascii" "ASCII characters"]),
  (MappingKey.new "sort" .Windows .Linux,
    (CommandMapping.new "sort" "sort").with_flags
     [FlagMapping.with_description "/r" "-r" "Reverse order",
      FlagMapping.with_description "/n" "-n" "Numeric sort"]),
  (MappingKey.new "where" .Windows .Linux,
    CommandMapping.new "where" "which"),
  (MappingKey.new "ping" .Windows .Linux,
    (CommandMapping.new "ping" "ping").with_flags
     [FlagMapping.with_description "-n" "-c" "Count of pings",
      FlagMapping.with_description "-t" "" "Continuous ping (use Ctrl+C)",
      FlagMapping.with_description "-l" "-s" "Packet size",
      FlagMapping.with_description "-w" "-W" "Timeout"]),
  (MappingKey.new "tracert" .Windows .Linux,
    (CommandMapping.new "tracert" "traceroute").with_flags
     [FlagMapping.with_description "-h" "-m" "Max hops",
      FlagMapping.with_description "-w" "-w" "Wait timeout"]),
  (MappingKey.new "netstat" .Windows .Linux,
    (CommandMapping.new "netstat" "ss").with_flags
     [FlagMapping.with_description "-a" "-a" "All sockets",
      FlagMapping.with_description "-n" "-n" "Numeric addresses",
      FlagMapping.with_description "-o" "-p" "Show process",
      FlagMapping.with_description "-b" "-p" "Show process name"]),
  (MappingKey.new "chkdsk" .Windows .Linux,
    (CommandMapping.new "chkdsk" "fsck").with_flags
     [FlagMapping.with_description "/f" "-y" "Fix errors automatically",
      FlagMapping.with_description "/r" "-c" "Locate bad sectors",
      FlagMapping.with_description "/x" "" "Force dismount",
      FlagMapping.with_description "/i" "" "Less vigorous check",
      FlagMapping.with_description "/c" "" "Skip cycle checking",
      FlagMapping.with_description "/b" "" "Re-evaluate bad clusters"]),
  (MappingKey.new "ls" .Linux .Windows,
    (CommandMapping.new "ls" "dir").with_flags
     [FlagMapping.with_description "-l" "" "Long format (default in dir)",
      FlagMapping.with_description "-a" "/a" "All files including hidden",
      FlagMapping.with_description "-A" "/a" "Almost all (exclude . and ..)",
      FlagMapping.with_description "-la" "/a" "All files long format",
      FlagMapping.with_description "-lA" "/a" "Almost all, long format",
      FlagMapping.with_description "-R" "/s" "Recursive listing",
      FlagMapping.with_description "-1" "/b" "One file per line",
      FlagMapping.with_description "-C" "/w" "Multi-column output",
      FlagMapping.with_description "-S" "/o:s" "Sort by size",
      FlagMapping.with_description "-t" "/o:d" "Sort by time",
      FlagMapping.with_description "-r" "/o:-n" "Reverse sort order",
      FlagMapping.with_description "-X" "/o:e" "Sort by extension",
      FlagMapping.with_description "-h" "" "Human readable sizes",
      FlagMapping.with_description "-d" "" "List directories themselves",
      FlagMapping.with_description "-F" "" "Append indicator",
      FlagMapping.with_description "-i" "" "Show inode numbers",
      FlagMapping.with_description "-n" "" "Numeric UID/GID",
      FlagMapping.with_description "-o" "" "Long without group",
      FlagMapping.with_description "-g" "" "Long without owner",
      FlagMapping.with_description "-p" "" "Append / to directories",
      FlagMapping.with_description "-Q" "" "Quote names",
      FlagMapping.with_description "-s" "" "Show block size",
      FlagMapping.with_description "-u" "/o:d" "Sort by access time",
      FlagMapping.with_description "-U" "" "Unsorted",
      FlagMapping.with_description "-v" "/o:n" "Natural sort of version",
      FlagMapping.with_description "--sort=size" "/o:s" "Sort by size",
      FlagMapping.with_description "--sort=time" "/o:d" "Sort by time",
      FlagMapping.with_description "--sort=name" "/o:n" "Sort by name",
      FlagMapping.with_description "--sort=extension" "/o:e" "Sort by extension",
      FlagMapping.with_description "--sort=none" "" "Unsorted",
      FlagMapping.with_description "--color" "" "Color output (N/A)",
      FlagMapping.with_description "--color=auto" "" "Color when terminal",
      FlagMapping.with_description "--color=never" "" "No color"]),
  (MappingKey.new "ls" .MacOS .Windows,
    (CommandMapping.new "ls" "dir").with_flags
     [FlagMapping.with_description "-l" "" "Long format",
      FlagMapping.with_description "-a" "/a" "All files",
      FlagMapping.with_description "-A" "/a" "Almost all",
      FlagMapping.with_description "-la" "/a" "All files long",
      FlagMapping.with_description "-R" "/s" "Recursive",
      FlagMapping.with_description "-1" "/b" "One per line",
      FlagMapping.with_description "-S" "/o:s" "Sort by size",
      FlagMapping.with_description "-t" "/o:d" "Sort by time",
      FlagMapping.with_description "-r" "/o:-n" "Reverse order"]),
  (MappingKey.new "cp" .Linux .Windows,
    (CommandMapping.new "cp" "copy").with_flags
     [FlagMapping.with_description "-r" "xcopy /s /e /y" "Recursive copy",
      FlagMapping.with_description "-R" "xcopy /s /e /y" "Recursive copy",
      FlagMapping.with_description "-f" "/y" "Force overwrite",
      FlagMapping.with_description "-i" "/-y" "Interactive/confirm",
      FlagMapping.with_description "-n" "/-y" "No clobber",
      FlagMapping.with_description "-v" "/v" "Verbose",
      FlagMapping.with_description "-u" "" "Update only",
      FlagMapping.with_description "-p" "" "Preserve attributes",
      FlagMapping.with_description "-a" "xcopy /s /e /h /k" "Archive mode",
      FlagMapping.with_description "-l" "" "Create hard links",
      FlagMapping.with_description "-s" "" "Create symbolic links",
      FlagMapping.with_description "-L" "" "Follow symlinks",
      FlagMapping.with_description "-P" "" "Don\x27t follow symlinks",
      FlagMapping.with_description "-d" "" "Copy symlinks as symlinks",
      FlagMapping.with_description "-x" "" "Stay on filesystem",
      FlagMapping.with_description "-t" "" "Target directory",
      FlagMapping.with_description "-T" "" "Treat dest as normal file",
      FlagMapping.with_description "--backup" "" "Make backup",
      FlagMapping.with_description "--preserve" "" "Preserve attributes"]),
  (MappingKey.new "cp" .MacOS .Windows,
    (CommandMapping.new "cp" "copy").with_flags
     [FlagMapping.with_description "-r" "xcopy /s /e /y" "Recursive",
      FlagMapping.with_description "-R" "xcopy /s /e /y" "Recursive",
      FlagMapping.with_description "-f" "/y" "Force",
      FlagMapping.with_description "-i" "/-y" "Interactive",
      FlagMapping.with_description "-v" "/v" "Verbose",
      FlagMapping.with_description "-p" "" "Preserve attributes"]),
  (MappingKey.new "mv" .Linux .Windows,
    (CommandMapping.new "mv" "move").with_flags
     [FlagMapping.with_description "-f" "/y" "Force overwrite",
      FlagMapping.with_description "-i" "/-y" "Interactive",
      FlagMapping.with_description "-n" "/-y" "No clobber",
      FlagMapping.with_description "-u" "" "Update only",
      FlagMapping.with_description "-v" "" "Verbose",
      FlagMapping.with_description "-t" "" "Target directory",
      FlagMapping.with_description "-T" "" "Treat dest as file",
      FlagMapping.with_description "--backup" "" "Make backup"]),
  (MappingKey.new "mv" .MacOS .Windows,
    (CommandMapping.new "mv" "move").with_flags
     [FlagMapping.with_description "-f" "/y" "Force",
      FlagMapping.with_description "-i" "/-y" "Interactive",
      FlagMapping.with_description "-n" "/-y" "No clobber",
      FlagMapping.with_description "-v" "" "Verbose"]),
  (MappingKey.new "rm" .Linux .Windows,
    (CommandMapping.new "rm" "del").with_flags
     [FlagMapping.with_description "-r" "/s" "Recursive delete",
      FlagMapping.with_description "-R" "/s" "Recursive delete",
      FlagMapping.with_description "-f" "/q /f" "Force delete, quiet mode",
      FlagMapping.with_description "-i" "/p" "Interactive prompt",
      FlagMapping.with_description "-I" "/p" "Prompt once",
      FlagMapping.with_description "-rf" "/s /q /f" "Recursive force (common shorthand)",
      FlagMapping.with_description "-fr" "/s /q /f" "Force recursive (equivalent to -rf)",
      FlagMapping.with_description "-v" "" "Verbose",
      FlagMapping.with_description "-d" "rmdir" "Remove empty directories",
      FlagMapping.with_description "--preserve-root" "" "Don\x27t delete /",
      FlagMapping.with_description "--no-preserve-root" "" "Allow deleting /",
      FlagMapping.with_description "--one-file-system" "" "Stay on filesystem"]),
  (MappingKey.new "rm" .MacOS .Windows,
    (CommandMapping.new "rm" "del").with_flags
     [FlagMapping.with_description "-r" "/s" "Recursive",
      FlagMapping.with_description "-R" "/s" "Recursive",
      FlagMapping.with_description "-f" "/q /f" "Force",
      FlagMapping.with_description "-i" "/p" "Interactive",
      FlagMapping.with_description "-rf" "/s /q /f" "Recursive force",
      FlagMapping.with_description "-v" "" "Verbose",
      FlagMapping.with_description "-d" "rmdir" "Remove directories",
      FlagMapping.with_description "-P" "" "Overwrite before delete"]),
  (MappingKey.new "cat" .Linux .Windows,
    (CommandMapping.new "cat" "type").with_flags
     [FlagMapping.with_description "-n" "" "Number lines (N/A)",
      FlagMapping.with_description "-b" "" "Number non-blank lines",
      FlagMapping.with_description "-s" "" "Squeeze blank lines",
      FlagMapping.with_description "-E" "" "Show line endings",
      FlagMapping.with_description "-T" "" "Show tabs",
      FlagMapping.with_description "-A" "" "Show all",
      FlagMapping.with_description "-v" "" "Show non-printing"]),
  (MappingKey.new "cat" .MacOS .Windows,
    (CommandMapping.new "cat" "type").with_flags
     [FlagMapping.with_description "-n" "" "Number lines",
      FlagMapping.with_description "-b" "" "Number non-blank",
      FlagMapping.with_description "-s" "" "Squeeze blanks"]),
  (MappingKey.new "clear" .Linux .Windows,
    CommandMapping.new "clear" "cls"),
  (MappingKey.new "clear" .MacOS .Windows,
    CommandMapping.new "clear" "cls"),
  (MappingKey.new "grep" .Linux .Windows,
    (CommandMapping.new "grep" "findstr").with_flags
     [FlagMapping.with_description "-i" "/i" "Case insensitive",
      FlagMapping.with_description "-I" "/i" "Case insensitive",
      FlagMapping.with_description "-r" "/s" "Recursive search",
      FlagMapping.with_description "-R" "/s" "Recursive search",
      FlagMapping.with_description "-n" "/n" "Show line numbers",
      FlagMapping.with_description "-v" "/v" "Invert match",
      FlagMapping.with_description "-c" "/c:" "Count matches",
      FlagMapping.with_description "-l" "/m" "List files only",
      FlagMapping.with_description "-L" "" "List non-matching files",
      FlagMapping.with_description "-E" "/r" "Extended regex",
      FlagMapping.with_description "-e" "" "Pattern",
      FlagMapping.with_description "-f" "/g:" "Patterns from file",
      FlagMapping.with_description "-w" "" "Whole word",
      FlagMapping.with_description "-x" "/x" "Whole line",
      FlagMapping.with_description "-o" "" "Only matching",
      FlagMapping.with_description "-h" "" "No filename",
      FlagMapping.with_description "-H" "" "With filename",
      FlagMapping.with_description "-q" "" "Quiet mode",
      FlagMapping.with_description "-s" "" "Suppress errors",
      FlagMapping.with_description "-m" "" "Max count",
      FlagMapping.with_description "-A" "" "After context",
      FlagMapping.with_description "-B" "" "Before context",
      FlagMapping.with_description "-C" "" "Context lines",
      FlagMapping.with_description "--color" "" "Color output",
      FlagMapping.with_description "--include" "" "Include pattern",
      FlagMapping.with_description "--exclude" "" "Exclude pattern"]),
  (MappingKey.new "grep" .MacOS .Windows,
    (CommandMapping.new "grep" "findstr").with_flags
     [FlagMapping.with_description "-i" "/i" "Case insensitive",
      FlagMapping.with_description "-r" "/s" "Recursive",
      FlagMapping.with_description "-R" "/s" "Recursive",
      FlagMapping.with_description "-n" "/n" "Line numbers",
      FlagMapping.with_description "-v" "/v" "Invert match",
      FlagMapping.with_description "-c" "/c:" "Count",
      FlagMapping.with_description "-l" "/m" "List files",
      FlagMapping.with_description "-E" "/r" "Extended regex"]),
  (MappingKey.new "ps" .Linux .Windows,
    CommandMapping.new "ps" "tasklist"),
  (MappingKey.new "kill" .Linux .Windows,
    (CommandMapping.new "kill" "taskkill /pid").with_flags
     [FlagMapping.with_description "-9" "/f" "Force kill",
      FlagMapping.with_description "-SIGKILL" "/f" "Force kill",
      FlagMapping.with_description "-SIGTERM" "" "Terminate"]),
  (MappingKey.new "pkill" .Linux .Windows,
    (CommandMapping.new "pkill" "taskkill /im").with_flags
     [FlagMapping.with_description "-9" "/f" "Force kill"]),
  (MappingKey.new "ifconfig" .Linux .Windows,
    CommandMapping.new "ifconfig" "ipconfig"),
  (MappingKey.new "ip" .Linux .Windows,
    (CommandMapping.new "ip" "ipconfig").with_flags
     [FlagMapping.with_description "addr" "/all" "Show addresses",
      FlagMapping.with_description "link" "" "Link info",
      FlagMapping.with_description "route" "" "Routing table"]),
  (MappingKey.new "uname" .Linux .Windows,
    (CommandMapping.new "uname" "systeminfo").with_flags
     [FlagMapping.with_description "-a" "" "All info",
      FlagMapping.with_description "-r" "" "Release"]),
  (MappingKey.new "env" .Linux .Windows,
    CommandMapping.new "env" "set"),
  (MappingKey.new "printenv" .Linux .Windows,
    CommandMapping.new "printenv" "set"),
  (MappingKey.new "chmod" .Linux .Windows,
    CommandMapping.new "chmod" "attrib"),
  (MappingKey.new "diff" .Linux .Windows,
    (CommandMapping.new "diff" "fc").with_flags
     [FlagMapping.with_description "-i" "/c" "Ignore case",
      FlagMapping.with_description "-w" "/w" "Ignore whitespace",
      FlagMapping.with_description "-n" "/n" "Show line numbers"]),
  (MappingKey.new "less" .Linux .Windows,
    CommandMapping.new "less" "more"),
  (MappingKey.new "which" .Linux .Windows,
    CommandMapping.new "which" "where"),
  (MappingKey.new "whereis" .Linux .Windows,
    CommandMapping.new "whereis" "where"),
  (MappingKey.new "touch" .Linux .Windows,
    CommandMapping.new "touch" "type nul >"),
  (MappingKey.new "head" .Linux .Windows,
    CommandMapping.new "head" "more"),
  (MappingKey.new "tail" .Linux .Windows,
    CommandMapping.new "tail" "more"),
  (MappingKey.new "ping" .Linux .Windows,
    (CommandMapping.new "ping" "ping").with_flags
     [FlagMapping.with_description "-c" "-n" "Count",
      FlagMapping.with_description "-s" "-l" "Packet size",
      FlagMapping.with_description "-W" "-w" "Timeout"]),
  (MappingKey.new "traceroute" .Linux .Windows,
    (CommandMapping.new "traceroute" "tracert").with_flags
     [FlagMapping.with_description "-m" "-h" "Max hops",
      FlagMapping.with_description "-w" "-w" "Wait timeout"]),
  (MappingKey.new "ss" .Linux .Windows,
    (CommandMapping.new "ss" "netstat").with_flags
     [FlagMapping.with_description "-a" "-a" "All sockets",
      FlagMapping.with_description "-n" "-n" "Numeric",
      FlagMapping.with_description "-p" "-o" "Show process",
      FlagMapping.with_description "-t" "" "TCP only",
      FlagMapping.with_description "-u" "" "UDP only"]),
  (MappingKey.new "tar" .Linux .Windows,
    CommandMapping.new "tar" "tar"),
  (MappingKey.new "curl" .Linux .Windows,
    CommandMapping.new "curl" "curl"),
  (MappingKey.new "wget" .Linux .Windows,
    (CommandMapping.new "wget" "curl -O").with_flags
     [FlagMapping.with_description "-O" "-o" "Output file",
      FlagMapping.with_description "-q" "-s" "Quiet/silent"]),
  (MappingKey.new "df" .Linux .Windows,
    CommandMapping.new "df" "wmic logicaldisk get size,freespace,caption"),
  (MappingKey.new "du" .Linux .Windows,
    CommandMapping.new "du" "dir /s"),
  (MappingKey.new "ln" .Linux .Windows,
    (CommandMapping.new "ln" "mklink").with_flags
     [FlagMapping.with_description "-s" "" "Symbolic link (default in mklink)"]),
  (MappingKey.new "man" .Linux .Windows,
    CommandMapping.new "man" "help"),
  (MappingKey.new "open" .MacOS .Windows,
    (CommandMapping.new "open" "start").with_flags
     [FlagMapping.with_description "-a" "" "Open with application",
      FlagMapping.with_description "-R" "" "Reveal in Finder"]),
  (MappingKey.new "start" .Windows .MacOS,
    CommandMapping.new "start" "open"),
  (MappingKey.new "pbcopy" .MacOS .Windows,
    CommandMapping.new "pbcopy" "clip"),
  (MappingKey.new "pbpaste" .MacOS .Windows,
    CommandMapping.new "pbpaste" "powershell -command Get-Clipboard"),
  (MappingKey.new "xclip" .Linux .MacOS,
    CommandMapping.new "xclip" "pbcopy"),
  (MappingKey.new "xdg-open" .Linux .MacOS,
    CommandMapping.new "xdg-open" "open"),
  (MappingKey.new "open" .MacOS .Linux,
    CommandMapping.new "open" "xdg-open"),
  (MappingKey.new "pbcopy" .MacOS .Linux,
    CommandMapping.new "pbcopy" "xclip -selection clipboard"),
  (MappingKey.new "pbpaste" .MacOS .Linux,
    CommandMapping.new "pbpaste" "xclip -selection clipboard -o"),
  (MappingKey.new "start" .Windows .Linux,
    CommandMapping.new "start" "xdg-open"),
  (MappingKey.new "clip" .Windows .Linux,
    CommandMapping.new "clip" "xclip -selection clipboard"),
  (MappingKey.new "xdg-open" .Linux .Windows,
    CommandMapping.new "xdg-open" "start"),
  (MappingKey.new "xclip" .Linux .Windows,
    CommandMapping.new "xclip" "clip"),
  (MappingKey.new "shutdown" .Windows .Linux,
    (CommandMapping.new "shutdown" "shutdown").with_flags
     [FlagMapping.with_description "/s" "-h now" "Shutdown",
      FlagMapping.with_description "/r" "-r now" "Restart",
      FlagMapping.with_description "/t" "-t" "Timeout",
      FlagMapping.with_description "/a" "-c" "Abort"]),
  (MappingKey.new "shutdown" .Linux .Windows,
    (CommandMapping.new "shutdown" "shutdown").with_flags
     [FlagMapping.with_description "-h" "/s" "Shutdown",
      FlagMapping.with_description "-r" "/r" "Restart",
      FlagMapping.with_description "-c" "/a" "Abort"]),
  (MappingKey.new "dir" .Windows .FreeBSD,
    (CommandMapping.new "dir" "ls").with_flags
     [FlagMapping.new "/w" "-C",
      FlagMapping.new "/s" "-R",
      FlagMapping.new "/b" "-1",
      FlagMapping.new "/a" "-la"]),
  (MappingKey.new "dir" .Windows .OpenBSD,
    (CommandMapping.new "dir" "ls").with_flags
     [FlagMapping.new "/w" "-C",
      FlagMapping.new "/s" "-R",
      FlagMapping.new "/b" "-1",
      FlagMapping.new "/a" "-la"]),
  (MappingKey.new "dir" .Windows .NetBSD,
    (CommandMapping.new "dir" "ls").with_flags
     [FlagMapping.new "/w" "-C",
      FlagMapping.new "/s" "-R",
      FlagMapping.new "/b" "-1",
      FlagMapping.new "/a" "-la"]),
  (MappingKey.new "copy" .Windows .FreeBSD,
    (CommandMapping.new "copy" "cp").with_flags
     [FlagMapping.new "/y" "-f",
      FlagMapping.new "/v" "-v"]),
  (MappingKey.new "copy" .Windows .OpenBSD,
    (CommandMapping.new "copy" "cp").with_flags
     [FlagMapping.new "/y" "-f",
      FlagMapping.new "/v" "-v"]),
  (MappingKey.new "copy" .Windows .NetBSD,
    (CommandMapping.new "copy" "cp").with_flags
     [FlagMapping.new "/y" "-f",
      FlagMapping.new "/v" "-v"]),
  (MappingKey.new "ls" .FreeBSD .Windows,
    (CommandMapping.new "ls" "dir").with_flags
     [FlagMapping.new "-a" "/a",
      FlagMapping.new "-R" "/s",
      FlagMapping.new "-1" "/b"]),
  (MappingKey.new "ls" .OpenBSD .Windows,
    (CommandMapping.new "ls" "dir").with_flags
     [FlagMapping.new "-a" "/a",
      FlagMapping.new "-R" "/s",
      FlagMapping.new "-1" "/b"]),
  (MappingKey.new "ls" .NetBSD .Windows,
    (CommandMapping.new "ls" "dir").with_flags
     [FlagMapping.new "-a" "/a",
      FlagMapping.new "-R" "/s",
      FlagMapping.new "-1" "/b"])
]

/-- Rust `get_mapping`. -/
def get_mapping (command : String) (from_os to_os : Os) : Option CommandMapping :=
  (COMMAND_MAPPINGS.find? (fun e => e.1 = MappingKey.new command from_os to_os)).map (·.2)

/-- The Windows arm of `is_native_command` (a `matches!` over literals). -/
def windowsNativeCommands : List String :=
  ["dir", "copy", "xcopy", "move", "del", "erase", "rmdir", "rd",
   "mkdir", "md", "type", "cls", "findstr", "find", "tasklist",
   "taskkill", "ipconfig", "systeminfo", "hostname", "whoami", "set",
   "attrib", "fc", "more", "ren", "rename", "tree", "sort", "where",
   "ping", "tracert", "netstat", "chkdsk", "start", "clip", "shutdown",
   "robocopy", "icacls", "takeown", "sfc", "dism", "wmic", "net",
   "sc", "reg", "powershell", "cmd", "echo", "pause", "exit", "call",
   "if", "for", "goto", "setlocal", "endlocal", "pushd", "popd",
   "mklink", "assoc", "ftype", "path", "title", "color", "prompt",
   "ver", "vol", "label", "format", "diskpart", "bcdedit", "bootrec"]

/-- The Unix/Linux arm of `is_native_command`. -/
def unixNativeCommands : List String :=
  ["ls", "cp", "mv", "rm", "cat", "clear", "grep", "ps", "kill",
   "pkill", "ifconfig", "ip", "uname", "env", "printenv", "export",
   "chmod", "chown", "chgrp", "diff", "less", "more", "which",
   "whereis", "touch", "head", "tail", "ping", "traceroute", "ss",
   "netstat", "tar", "gzip", "gunzip", "bzip2", "xz", "zip", "unzip",
   "curl", "wget", "df", "du", "ln", "man", "info", "find", "locate",
   "xdg-open", "xclip", "xsel", "shutdown", "reboot", "halt", "poweroff",
   "systemctl", "service", "apt", "apt-get", "yum", "dnf", "pacman",
   "zypper", "emerge", "pkg", "brew", "snap", "flatpak", "echo", "printf",
   "test", "expr", "bc", "awk", "sed", "cut", "sort", "uniq", "wc",
   "tr", "tee", "xargs", "date", "cal", "uptime", "who", "w", "last",
   "id", "groups", "sudo", "su", "passwd", "useradd", "userdel", "usermod",
   "groupadd", "groupdel", "crontab", "at", "jobs", "fg", "bg", "nohup",
   "screen", "tmux", "ssh", "scp", "sftp", "rsync", "nc", "telnet",
   "ftp", "nmap", "tcpdump", "iptables", "ufw", "firewalld", "mount",
   "umount", "fdisk", "parted", "mkfs", "fsck", "dd", "lsblk", "blkid",
   "free", "top", "htop", "vmstat", "iostat", "sar", "strace", "ltrace",
   "gdb", "valgrind", "make", "gcc", "g++", "clang", "ld", "ar", "nm",
   "objdump", "readelf", "ldd", "git", "svn", "hg", "cvs", "patch",
   "alias", "unalias", "history", "source", "exit", "logout", "cd", "pwd",
   "mkdir", "rmdir", "basename", "dirname", "realpath", "readlink", "stat",
   "file", "strings", "hexdump", "od", "xxd", "base64", "md5sum", "sha1sum",
   "sha256sum", "openssl", "gpg", "dmesg", "journalctl", "logger", "syslog"]

/-- The macOS/iOS arm of `is_native_command`. -/
def macNativeCommands : List String :=
  ["ls", "cp", "mv", "rm", "cat", "clear", "grep", "ps", "kill",
   "pkill", "ifconfig", "uname", "env", "printenv", "export",
   "chmod", "chown", "chgrp", "diff", "less", "more", "which",
   "whereis", "touch", "head", "tail", "ping", "traceroute",
   "netstat", "tar", "gzip", "gunzip", "bzip2", "xz", "zip", "unzip",
   "curl", "df", "du", "ln", "man", "find", "locate", "mdfind",
   "open", "pbcopy", "pbpaste", "say", "caffeinate", "osascript",
   "defaults", "launchctl", "diskutil", "hdiutil", "sw_vers", "system_profiler",
   "softwareupdate", "spctl", "codesign", "xcode-select", "xcrun",
   "brew", "port", "shutdown", "reboot", "halt", "echo", "printf",
   "test", "expr", "bc", "awk", "sed", "cut", "sort", "uniq", "wc",
   "tr", "tee", "xargs", "date", "cal", "uptime", "who", "w", "last",
   "id", "groups", "sudo", "su", "passwd", "dscl", "dscacheutil",
   "crontab", "at", "jobs", "fg", "bg", "nohup", "screen", "tmux",
   "ssh", "scp", "sftp", "rsync", "nc", "telnet", "ftp", "nmap",
   "tcpdump", "pfctl", "mount", "umount", "dd",
   "top", "vm_stat", "fs_usage", "dtrace", "lldb", "make", "clang",
   "git", "svn", "hg", "patch", "alias", "unalias", "history", "source",
   "exit", "logout", "cd", "pwd", "mkdir", "rmdir", "basename", "dirname",
   "realpath", "readlink", "stat", "file", "strings", "hexdump", "od",
   "xxd", "base64", "md5", "shasum", "openssl", "security", "keychain"]

/-- Rust `is_native_command`: membership in the per-OS closed command sets. -/
def is_native_command (command : String) (os : Os) : Bool :=
  let cmd_lower := rustToLower command
  match os with
  | .Windows => windowsNativeCommands.contains cmd_lower
  | .Linux | .FreeBSD | .OpenBSD | .NetBSD | .Solaris | .Android =>
    unixNativeCommands.contains cmd_lower
  | .MacOS | .Ios => macNativeCommands.contains cmd_lower
  | .Unknown => false

/-- Rust `is_target_command_for_os`: does `command` appear as the base word of some
mapping target whose key points to `target_os`? -/
def is_target_command_for_os (command : String) (target_os : Os) : Bool :=
  let cmd_lower := rustToLower command
  COMMAND_MAPPINGS.any (fun e =>
    e.1.to_os = target_os &&
    rustToLower ((rustSplitWhitespace e.2.target_cmd).headD "") = cmd_lower)

/-! ## engine.rs — translation engine -/

/-- Rust `struct TranslationResult`. -/
structure TranslationResult where
  command : String
  original : String
  from_os : Os
  to_os : Os
  warnings : List String
  had_unmapped_flags : Bool
deriving DecidableEq, Repr

/-- Rust `TranslationResult::new`. -/
def TranslationResult.new (command original : String) (from_os to_os : Os) :
    TranslationResult :=
  { command := command, original := original, from_os := from_os, to_os := to_os
    warnings := [], had_unmapped_flags := false }

/-- Rust `enum TranslationError`. -/
inductive TranslationError where
  | CommandNotFound (cmd : String)
  | EmptyCommand
  | InvalidOs (os : String)
  | SameOs
deriving DecidableEq, Repr

/-- Rust `parse_command`: split into lowercased command name and argument list. -/
def parse_command (input : String) : String × List String :=
  let trimmed := rustTrim input
  let parts := rustSplitWhitespace trimmed
  match parts with
  | [] => ("", [])
  | c :: args => (rustToLower c, args)

/-- The body of the inner rule loop of `translate_flags` for one rule: `none`
when the rule matches `arg` neither exactly nor as a prefix, otherwise the
tokens it emits (the exact-match arm is tried first, then the prefix arm). -/
def flagRuleApply (arg : String) (fm : FlagMapping) : Option (List String) :=
  -- Handle exact match
  if arg = fm.source ∨ rustToLower arg = rustToLower fm.source then
    some (if fm.target ≠ "" then rustSplitWhitespace fm.target else [])
  -- Handle flags with values (e.g., -n 5 or /n:5)
  else if rustStartsWith arg fm.source then
    let value := rustDrop arg fm.source.data.length
    some (if fm.target ≠ "" then
            (if value = "" then [fm.target]
             else
               let value_clean := rustTrimStartMatches (rustTrimStartMatches value ':') '='
               [fm.target ++ " " ++ value_clean])
          else [])
  else none

/-- The inner `for flag_mapping in &mapping.flag_mappings` loop with its
`break`: the first matching rule decides, later rules are never consulted. -/
def scanFlagRules (arg : String) : List FlagMapping → Option (List String)
  | [] => none
  | fm :: rest =>
    match flagRuleApply arg fm with
    | some out => some out
    | none => scanFlagRules arg rest

/-- One iteration of the outer `for arg in args` loop of `translate_flags`,
acting on the accumulated `(translated_args, result)` state. -/
def translateFlagsStep (mapping : CommandMapping) (acc : List String × TranslationResult)
    (arg : String) : List String × TranslationResult :=
  match scanFlagRules arg mapping.flag_mappings with
  | some out => (acc.1 ++ out, acc.2)
  | none =>
    -- If flag was not found in mappings
    if mapping.preserve_unmapped_flags then
      if rustStartsWith arg "-" || rustStartsWith arg "/" then
        (acc.1 ++ [arg],
         { acc.2 with
           warnings := acc.2.warnings ++ ["Flag \x27" ++ arg ++ "\x27 was not translated"]
           had_unmapped_flags := true })
      else (acc.1 ++ [arg], acc.2)
    else
      (acc.1,
       { acc.2 with
         warnings := acc.2.warnings ++ ["Flag \x27" ++ arg ++ "\x27 was dropped"]
         had_unmapped_flags := true })

/-- Rust `translate_flags`: rewrite the argument list against one mapping,
returning the translated arguments and the updated result state. -/
def translate_flags (args : List String) (mapping : CommandMapping)
    (result : TranslationResult) : List String × TranslationResult :=
  args.foldl (translateFlagsStep mapping) ([], result)

/-- Rust `translate_command`. -/
def translate_command (input : String) (from_os to_os : Os) :
    Except TranslationError TranslationResult :=
  -- Check for empty input
  let trimmed := rustTrim input
  if trimmed = "" then .error .EmptyCommand
  -- Same OS - just return the input
  else if from_os = to_os then
    .ok (TranslationResult.new trimmed trimmed from_os to_os)
  else
    -- Parse the command
    let (command_name, args) := parse_command trimmed
    if command_name = "" then .error .EmptyCommand
    -- Command already native to the target OS only: pass through with warning
    else if is_native_command command_name to_os ∧ ¬ is_native_command command_name from_os then
      .ok { TranslationResult.new trimmed trimmed from_os to_os with
            warnings := ["Command \x27" ++ command_name ++ "\x27 is already in "
                         ++ to_os.display ++ " format, passed through unchanged"] }
    -- Command native to both OSes (e.g. ping)
    else if is_native_command command_name to_os ∧ is_native_command command_name from_os then
      match get_mapping command_name from_os to_os with
      | some mapping =>
        let result := TranslationResult.new "" trimmed from_os to_os
        let (translated_args, result) := translate_flags args mapping result
        let final_command :=
          mapping.target_cmd ++
            (if translated_args ≠ [] then " " ++ String.intercalate " " translated_args else "")
        .ok { result with command := final_command }
      | none =>
        -- No flag mappings, pass through unchanged
        .ok (TranslationResult.new trimmed trimmed from_os to_os)
    else
      -- Look up the mapping
      match get_mapping command_name from_os to_os with
      | none =>
        if from_os.is_unix_like ∧ to_os.is_unix_like then
          .ok { TranslationResult.new trimmed trimmed from_os to_os with
                warnings := ["Command \x27" ++ command_name
                             ++ "\x27 passed through (Unix-like OS compatibility assumed)"] }
        else if is_target_command_for_os command_name to_os then
          .ok { TranslationResult.new trimmed trimmed from_os to_os with
                warnings := ["Command \x27" ++ command_name ++ "\x27 appears to already be a "
                             ++ to_os.display ++ " command, passed through unchanged"] }
        else .error (.CommandNotFound command_name)
      | some mapping =>
        let result := TranslationResult.new "" trimmed from_os to_os
        let (translated_args, result) := translate_flags args mapping result
        let final_command :=
          mapping.target_cmd ++
            (if translated_args ≠ [] then " " ++ String.intercalate " " translated_args else "")
        -- Add notes from mapping if any
        let result := { result with command := final_command }
        match mapping.notes with
        | some notes => .ok { result with warnings := result.warnings ++ [notes] }
        | none => .ok result

/-- Rust `COMPOUND_OPERATORS`. -/
def COMPOUND_OPERATORS : List String := ["&&", "||", ";", "|"]

/-- The character loop of `split_compound_command`: `cur` is the `current`
segment buffer; two-character operators are recognized before one-character
ones, and a buffered segment is pushed only when non-empty. -/
def splitCompoundGo : List Char → List Char → List (List Char)
  | [], cur => if cur ≠ [] then [cur] else []
  | [c], cur =>
    if c = '|' ∨ c = ';' then
      (if cur ≠ [] then [cur] else []) ++ [[c]]
    else if cur ++ [c] ≠ [] then [cur ++ [c]] else []
  | c1 :: c2 :: rest, cur =>
    if (c1 = '&' ∧ c2 = '&') ∨ (c1 = '|' ∧ c2 = '|') then
      (if cur ≠ [] then [cur] else []) ++ [[c1, c2]] ++ splitCompoundGo rest []
    else if c1 = '|' ∨ c1 = ';' then
      (if cur ≠ [] then [cur] else []) ++ [[c1]] ++ splitCompoundGo (c2 :: rest) []
    else splitCompoundGo (c2 :: rest) (cur ++ [c1])

/-- Rust `split_compound_command`: split on shell operators, preserving them. -/
def split_compound_command (input : String) : List String :=
  (splitCompoundGo input.data []).map String.mk

/-- The `for part in &parts` loop of `translate_compound_command`: translate
each non-operator segment, degrade `CommandNotFound` to a warning, propagate
any other error. Returns the translated part list and the result state. -/
def translateSegments (from_os to_os : Os) :
    List String → TranslationResult → Except TranslationError (List String × TranslationResult)
  | [], result => .ok ([], result)
  | part :: rest, result =>
    let trimmed_part := rustTrim part
    if COMPOUND_OPERATORS.contains trimmed_part then
      (translateSegments from_os to_os rest result).map
        (fun pr => (trimmed_part :: pr.1, pr.2))
    else if trimmed_part ≠ "" then
      match translate_command trimmed_part from_os to_os with
      | .ok cmd_result =>
        let result :=
          { result with
            warnings := result.warnings ++ cmd_result.warnings
            had_unmapped_flags := result.had_unmapped_flags || cmd_result.had_unmapped_flags }
        (translateSegments from_os to_os rest result).map
          (fun pr => (cmd_result.command :: pr.1, pr.2))
      | .error (.CommandNotFound _) =>
        -- Keep original command if not found (might be a custom/unknown command)
        let result :=
          { result with
            warnings := result.warnings ++
              ["Command \x27" ++ ((rustSplitWhitespace trimmed_part).headD trimmed_part)
               ++ "\x27 was not translated"] }
        (translateSegments from_os to_os rest result).map
          (fun pr => (trimmed_part :: pr.1, pr.2))
      | .error e => .error e
    else translateSegments from_os to_os rest result

/-- Rust `translate_compound_command`. -/
def translate_compound_command (input : String) (from_os to_os : Os) :
    Except TranslationError TranslationResult :=
  let trimmed := rustTrim input
  if trimmed = "" then .error .EmptyCommand
  -- Same OS - just return the input
  else if from_os = to_os then
    .ok (TranslationResult.new trimmed trimmed from_os to_os)
  else
    -- Split the command by operators while preserving the operators
    let parts := split_compound_command trimmed
    -- If there is only one part, use regular translation
    if parts.length = 1 then translate_command trimmed from_os to_os
    else
      let result := TranslationResult.new "" trimmed from_os to_os
      match translateSegments from_os to_os parts result with
      | .ok pr => .ok { pr.2 with command := String.intercalate " " pr.1 }
      | .error e => .error e

/-- Discriminator for the `SameOs` error variant of a translation outcome. -/
def is_same_os_error : Except TranslationError TranslationResult → Bool
  | .error .SameOs => true
  | _ => false

/-! ## distro.rs / package_manager.rs — package-manager translation -/

/-- Rust `enum PackageManager` from distro.rs. -/
inductive PackageManager where
  | Apt | Yum | Dnf | Pacman | Zypper | Apk | Emerge | Xbps | Nix | Generic
deriving DecidableEq, Repr

/-- Rust `impl fmt::Display for PackageManager`. -/
def PackageManager.display : PackageManager → String
  | .Apt => "apt"
  | .Yum => "yum"
  | .Dnf => "dnf"
  | .Pacman => "pacman"
  | .Zypper => "zypper"
  | .Apk => "apk"
  | .Emerge => "emerge"
  | .Xbps => "xbps"
  | .Nix => "nix"
  | .Generic => "generic"

/-- Rust `enum PackageOperation`. -/
inductive PackageOperation where
  | Install | Remove | Update | Upgrade | Search | Info | List | Clean | AutoRemove
deriving DecidableEq, Repr

/-- Rust `impl fmt::Display for PackageOperation`. -/
def PackageOperation.display : PackageOperation → String
  | .Install => "install"
  | .Remove => "remove"
  | .Update => "update"
  | .Upgrade => "upgrade"
  | .Search => "search"
  | .Info => "info"
  | .List => "list"
  | .Clean => "clean"
  | .AutoRemove => "autoremove"

/-- Rust `struct PackageTranslationResult`. -/
structure PackageTranslationResult where
  command : String
  original : String
  from_pm : PackageManager
  to_pm : PackageManager
  warnings : List String
  requires_sudo : Bool
deriving DecidableEq, Repr

/-- Rust `PackageTranslationResult::new` (no warnings, `requires_sudo = false`). -/
def PackageTranslationResult.new (command original : String)
    (from_pm to_pm : PackageManager) : PackageTranslationResult :=
  { command := command, original := original, from_pm := from_pm, to_pm := to_pm
    warnings := [], requires_sudo := false }

/-- Rust `enum PackageTranslationError`. -/
inductive PackageTranslationError where
  | NotPackageManagerCommand (cmd : String)
  | UnsupportedOperation (op : String)
  | EmptyCommand
  | SamePackageManager
deriving DecidableEq, Repr

/-- Rust `struct PackageFlagMapping`. -/
structure PackageFlagMapping where
  source : String
  target : String
  description : Option String
deriving DecidableEq, Repr

/-- Rust `PackageFlagMapping::new`. -/
def PackageFlagMapping.new (source target : String) : PackageFlagMapping :=
  { source := source, target := target, description := none }

/-- Rust `PackageFlagMapping::with_description`. -/
def PackageFlagMapping.with_description (source target description : String) :
    PackageFlagMapping :=
  { source := source, target := target, description := some description }

/-- Rust `struct OperationMapping`. -/
structure OperationMapping where
  command : String
  requires_sudo : Bool
  flag_mappings : List PackageFlagMapping
  notes : Option String
deriving DecidableEq, Repr

/-- Rust `OperationMapping::new`. -/
def OperationMapping.new (command : String) (requires_sudo : Bool) : OperationMapping :=
  { command := command, requires_sudo := requires_sudo, flag_mappings := [], notes := none }

/-- Rust `OperationMapping::with_notes`. -/
def OperationMapping.with_notes (m : OperationMapping) (notes : String) : OperationMapping :=
  { m with notes := some notes }

/-- Rust `struct OperationKey`. -/
structure OperationKey where
  pm : PackageManager
  op : PackageOperation
deriving DecidableEq, Repr

/-- Rust `struct FlagMappingKey`. -/
structure FlagMappingKey where
  from_pm : PackageManager
  to_pm : PackageManager
  op : PackageOperation
deriving DecidableEq, Repr

/-- Rust `OPERATION_MAPPINGS`: global per-manager operation table (association list
standing in for the once-built `HashMap` with unique keys). -/
def OPERATION_MAPPINGS : List (OperationKey × OperationMapping) := [
  (OperationKey.mk .Apt .Install, OperationMapping.new "apt install" true),
  (OperationKey.mk .Apt .Remove, OperationMapping.new "apt remove" true),
  (OperationKey.mk .Apt .Update, OperationMapping.new "apt update" true),
  (OperationKey.mk .Apt .Upgrade, OperationMapping.new "apt upgrade" true),
  (OperationKey.mk .Apt .Search, OperationMapping.new "apt search" false),
  (OperationKey.mk .Apt .Info, OperationMapping.new "apt show" false),
  (OperationKey.mk .Apt .List, OperationMapping.new "apt list --installed" false),
  (OperationKey.mk .Apt .Clean, OperationMapping.new "apt clean" true),
  (OperationKey.mk .Apt .AutoRemove, OperationMapping.new "apt autoremove" true),
  (OperationKey.mk .Yum .Install, OperationMapping.new "yum install" true),
  (OperationKey.mk .Yum .Remove, OperationMapping.new "yum remove" true),
  (OperationKey.mk .Yum .Update, OperationMapping.new "yum check-update" false),
  (OperationKey.mk .Yum .Upgrade, OperationMapping.new "yum update" true),
  (OperationKey.mk .Yum .Search, OperationMapping.new "yum search" false),
  (OperationKey.mk .Yum .Info, OperationMapping.new "yum info" false),
  (OperationKey.mk .Yum .List, OperationMapping.new "yum list installed" false),
  (OperationKey.mk .Yum .Clean, OperationMapping.new "yum clean all" true),
  (OperationKey.mk .Yum .AutoRemove, OperationMapping.new "yum autoremove" true),
  (OperationKey.mk .Dnf .Install, OperationMapping.new "dnf install" true),
  (OperationKey.mk .Dnf .Remove, OperationMapping.new "dnf remove" true),
  (OperationKey.mk .Dnf .Update, OperationMapping.new "dnf check-update" false),
  (OperationKey.mk .Dnf .Upgrade, OperationMapping.new "dnf upgrade" true),
  (OperationKey.mk .Dnf .Search, OperationMapping.new "dnf search" false),
  (OperationKey.mk .Dnf .Info, OperationMapping.new "dnf info" false),
  (OperationKey.mk .Dnf .List, OperationMapping.new "dnf list installed" false),
  (OperationKey.mk .Dnf .Clean, OperationMapping.new "dnf clean all" true),
  (OperationKey.mk .Dnf .AutoRemove, OperationMapping.new "dnf autoremove" true),
  (OperationKey.mk .Pacman .Install, OperationMapping.new "pacman -S" true),
  (OperationKey.mk .Pacman .Remove, OperationMapping.new "pacman -R" true),
  (OperationKey.mk .Pacman .Update, OperationMapping.new "pacman -Sy" true),
  (OperationKey.mk .Pacman .Upgrade, OperationMapping.new "pacman -Syu" true),
  (OperationKey.mk .Pacman .Search, OperationMapping.new "pacman -Ss" false),
  (OperationKey.mk .Pacman .Info, OperationMapping.new "pacman -Si" false),
  (OperationKey.mk .Pacman .List, OperationMapping.new "pacman -Q" false),
  (OperationKey.mk .Pacman .Clean, OperationMapping.new "pacman -Sc" true),
  (OperationKey.mk .Pacman .AutoRemove, (OperationMapping.new "pacman -Rs" true).with_notes "Removes package with unused dependencies"),
  (OperationKey.mk .Zypper .Install, OperationMapping.new "zypper install" true),
  (OperationKey.mk .Zypper .Remove, OperationMapping.new "zypper remove" true),
  (OperationKey.mk .Zypper .Update, OperationMapping.new "zypper refresh" true),
  (OperationKey.mk .Zypper .Upgrade, OperationMapping.new "zypper update" true),
  (OperationKey.mk .Zypper .Search, OperationMapping.new "zypper search" false),
  (OperationKey.mk .Zypper .Info, OperationMapping.new "zypper info" false),
  (OperationKey.mk .Zypper .List, OperationMapping.new "zypper search --installed-only" false),
  (OperationKey.mk .Zypper .Clean, OperationMapping.new "zypper clean" true),
  (OperationKey.mk .Zypper .AutoRemove, OperationMapping.new "zypper remove --clean-deps" true),
  (OperationKey.mk .Apk .Install, OperationMapping.new "apk add" true),
  (OperationKey.mk .Apk .Remove, OperationMapping.new "apk del" true),
  (OperationKey.mk .Apk .Update, OperationMapping.new "apk update" true),
  (OperationKey.mk .Apk .Upgrade, OperationMapping.new "apk upgrade" true),
  (OperationKey.mk .Apk .Search, OperationMapping.new "apk search" false),
  (OperationKey.mk .Apk .Info, OperationMapping.new "apk info" false),
  (OperationKey.mk .Apk .List, OperationMapping.new "apk list --installed" false),
  (OperationKey.mk .Apk .Clean, OperationMapping.new "apk cache clean" true),
  (OperationKey.mk .Apk .AutoRemove, (OperationMapping.new "apk del" true).with_notes "Use with package name and dependencies"),
  (OperationKey.mk .Emerge .Install, OperationMapping.new "emerge" true),
  (OperationKey.mk .Emerge .Remove, OperationMapping.new "emerge --unmerge" true),
  (OperationKey.mk .Emerge .Update, OperationMapping.new "emerge --sync" true),
  (OperationKey.mk .Emerge .Upgrade, OperationMapping.new "emerge --update --deep --with-bdeps=y @world" true),
  (OperationKey.mk .Emerge .Search, OperationMapping.new "emerge --search" false),
  (OperationKey.mk .Emerge .Info, OperationMapping.new "emerge --info" false),
  (OperationKey.mk .Emerge .List, (OperationMapping.new "qlist -I" false).with_notes "Requires portage-utils"),
  (OperationKey.mk .Emerge .Clean, OperationMapping.new "emerge --depclean" true),
  (OperationKey.mk .Emerge .AutoRemove, OperationMapping.new "emerge --depclean" true),
  (OperationKey.mk .Xbps .Install, OperationMapping.new "xbps-install" true),
  (OperationKey.mk .Xbps .Remove, OperationMapping.new "xbps-remove" true),
  (OperationKey.mk .Xbps .Update, OperationMapping.new "xbps-install -S" true),
  (OperationKey.mk .Xbps .Upgrade, OperationMapping.new "xbps-install -Su" true),
  (OperationKey.mk .Xbps .Search, OperationMapping.new "xbps-query -Rs" false),
  (OperationKey.mk .Xbps .Info, OperationMapping.new "xbps-query -R" false),
  (OperationKey.mk .Xbps .List, OperationMapping.new "xbps-query -l" false),
  (OperationKey.mk .Xbps .Clean, OperationMapping.new "xbps-remove -O" true),
  (OperationKey.mk .Xbps .AutoRemove, OperationMapping.new "xbps-remove -o" true),
  (OperationKey.mk .Nix .Install, OperationMapping.new "nix-env -i" false),
  (OperationKey.mk .Nix .Remove, OperationMapping.new "nix-env -e" false),
  (OperationKey.mk .Nix .Update, OperationMapping.new "nix-channel --update" false),
  (OperationKey.mk .Nix .Upgrade, OperationMapping.new "nix-env -u" false),
  (OperationKey.mk .Nix .Search, OperationMapping.new "nix search" false),
  (OperationKey.mk .Nix .Info, OperationMapping.new "nix-env -qa --description" false),
  (OperationKey.mk .Nix .List, OperationMapping.new "nix-env -q" false),
  (OperationKey.mk .Nix .Clean, OperationMapping.new "nix-collect-garbage" false),
  (OperationKey.mk .Nix .AutoRemove, OperationMapping.new "nix-collect-garbage -d" false)
]

/-- Rust `OPERATION_MAPPINGS.get(&key)`. -/
def operationMappingsGet (k : OperationKey) : Option OperationMapping :=
  (OPERATION_MAPPINGS.find? (fun e => e.1 = k)).map (·.2)

/-- The explicit inserts of the `FLAG_MAPPINGS` initializer, before the
cross-compatible verbose-flag loop. -/
def FLAG_MAPPINGS_BASE : List (FlagMappingKey × List PackageFlagMapping) := [
  (FlagMappingKey.mk .Apt .Dnf .Install,
     [PackageFlagMapping.with_description "-y" "-y" "Assume yes to all prompts",
      PackageFlagMapping.with_description "--yes" "-y" "Assume yes to all prompts",
      PackageFlagMapping.with_description "--assume-yes" "-y" "Assume yes",
      PackageFlagMapping.with_description "--no-install-recommends" "--setopt=install_weak_deps=False" "Don\x27t install weak dependencies",
      PackageFlagMapping.with_description "--reinstall" "--reinstall" "Reinstall package",
      PackageFlagMapping.with_description "-q" "-q" "Quiet mode",
      PackageFlagMapping.with_description "--quiet" "--quiet" "Quiet mode"]),
  (FlagMappingKey.mk .Apt .Yum .Install,
     [PackageFlagMapping.with_description "-y" "-y" "Assume yes",
      PackageFlagMapping.with_description "--yes" "-y" "Assume yes",
      PackageFlagMapping.with_description "--assume-yes" "-y" "Assume yes",
      PackageFlagMapping.with_description "--reinstall" "reinstall" "Reinstall package",
      PackageFlagMapping.with_description "-q" "-q" "Quiet mode",
      PackageFlagMapping.with_description "--quiet" "--quiet" "Quiet mode"]),
  (FlagMappingKey.mk .Apt .Pacman .Install,
     [PackageFlagMapping.with_description "-y" "--noconfirm" "No confirmation",
      PackageFlagMapping.with_description "--yes" "--noconfirm" "No confirmation",
      PackageFlagMapping.with_description "--assume-yes" "--noconfirm" "No confirmation",
      PackageFlagMapping.with_description "--no-install-recommends" "--asdeps" "Install as dependencies",
      PackageFlagMapping.with_description "-q" "-q" "Quiet",
      PackageFlagMapping.with_description "--quiet" "--quiet" "Quiet"]),
  (FlagMappingKey.mk .Apt .Zypper .Install,
     [PackageFlagMapping.with_description "-y" "-y" "Assume yes",
      PackageFlagMapping.with_description "--yes" "--no-confirm" "No confirmation",
      PackageFlagMapping.with_description "--assume-yes" "--non-interactive" "Non-interactive",
      PackageFlagMapping.with_description "--reinstall" "--force" "Force reinstall",
      PackageFlagMapping.with_description "-q" "-q" "Quiet"]),
  (FlagMappingKey.mk .Dnf .Apt .Install,
     [PackageFlagMapping.with_description "-y" "-y" "Assume yes",
      PackageFlagMapping.with_description "--assumeyes" "--assume-yes" "Assume yes",
      PackageFlagMapping.with_description "--reinstall" "--reinstall" "Reinstall",
      PackageFlagMapping.with_description "-q" "-q" "Quiet",
      PackageFlagMapping.with_description "--quiet" "--quiet" "Quiet"]),
  (FlagMappingKey.mk .Yum .Apt .Install,
     [PackageFlagMapping.with_description "-y" "-y" "Assume yes",
      PackageFlagMapping.with_description "--assumeyes" "--assume-yes" "Assume yes",
      PackageFlagMapping.with_description "-q" "-q" "Quiet",
      PackageFlagMapping.with_description "--quiet" "--quiet" "Quiet"]),
  (FlagMappingKey.mk .Dnf .Pacman .Install,
     [PackageFlagMapping.with_description "-y" "--noconfirm" "No confirmation",
      PackageFlagMapping.with_description "--assumeyes" "--noconfirm" "No confirmation",
      PackageFlagMapping.with_description "-q" "-q" "Quiet"]),
  (FlagMappingKey.mk .Pacman .Apt .Install,
     [PackageFlagMapping.with_description "--noconfirm" "-y" "Assume yes",
      PackageFlagMapping.with_description "--asdeps" "" "Install as dependency (no direct equivalent)",
      PackageFlagMapping.with_description "-q" "-q" "Quiet",
      PackageFlagMapping.with_description "--quiet" "--quiet" "Quiet"]),
  (FlagMappingKey.mk .Pacman .Dnf .Install,
     [PackageFlagMapping.with_description "--noconfirm" "-y" "Assume yes",
      PackageFlagMapping.with_description "-q" "-q" "Quiet"]),
  (FlagMappingKey.mk .Apt .Dnf .Remove,
     [PackageFlagMapping.with_description "-y" "-y" "Assume yes",
      PackageFlagMapping.with_description "--yes" "-y" "Assume yes",
      PackageFlagMapping.with_description "--purge" "" "Purge config files (no direct equivalent)",
      PackageFlagMapping.with_description "--auto-remove" "--noautoremove" "Don\x27t auto-remove dependencies"]),
  (FlagMappingKey.mk .Apt .Pacman .Remove,
     [PackageFlagMapping.with_description "-y" "--noconfirm" "No confirmation",
      PackageFlagMapping.with_description "--yes" "--noconfirm" "No confirmation",
      PackageFlagMapping.with_description "--purge" "-n" "Remove config files"]),
  (FlagMappingKey.mk .Pacman .Apt .Remove,
     [PackageFlagMapping.with_description "--noconfirm" "-y" "Assume yes",
      PackageFlagMapping.with_description "-n" "--purge" "Remove config files",
      PackageFlagMapping.with_description "-s" "--auto-remove" "Remove unused dependencies"]),
  (FlagMappingKey.mk .Apt .Dnf .Upgrade,
     [PackageFlagMapping.with_description "-y" "-y" "Assume yes",
      PackageFlagMapping.with_description "--yes" "-y" "Assume yes",
      PackageFlagMapping.with_description "-q" "-q" "Quiet"]),
  (FlagMappingKey.mk .Apt .Pacman .Upgrade,
     [PackageFlagMapping.with_description "-y" "--noconfirm" "No confirmation",
      PackageFlagMapping.with_description "--yes" "--noconfirm" "No confirmation"]),
  (FlagMappingKey.mk .Pacman .Apt .Upgrade,
     [PackageFlagMapping.with_description "--noconfirm" "-y" "Assume yes"]),
  (FlagMappingKey.mk .Apt .Dnf .Search,
     [PackageFlagMapping.with_description "-n" "" "Search names only (different in DNF)",
      PackageFlagMapping.with_description "--names-only" "" "Search names only"]),
  (FlagMappingKey.mk .Apt .Pacman .Search,
     [PackageFlagMapping.with_description "-n" "" "Search names only",
      PackageFlagMapping.with_description "--names-only" "" "Search names only"])
]

/-- The keys visited by the `for from_pm in ... for to_pm in ... for op in ...`
verbose-flag loop at the end of the `FLAG_MAPPINGS` initializer. -/
def verboseFlagKeys : List FlagMappingKey :=
  [PackageManager.Apt, .Dnf, .Yum, .Zypper].flatMap (fun from_pm =>
    [PackageManager.Apt, .Dnf, .Yum, .Zypper].flatMap (fun to_pm =>
      if from_pm ≠ to_pm then
        [PackageOperation.Install, .Remove, .Upgrade].map
          (fun op => FlagMappingKey.mk from_pm to_pm op)
      else []))

/-- Rust `m.entry(key).or_insert_with(Vec::new).push(verbose)`. -/
def flagMapPushVerbose (m : List (FlagMappingKey × List PackageFlagMapping))
    (k : FlagMappingKey) : List (FlagMappingKey × List PackageFlagMapping) :=
  let v := PackageFlagMapping.with_description "-v" "-v" "Verbose output"
  if m.any (fun e => e.1 = k) then
    m.map (fun e => if e.1 = k then (e.1, e.2 ++ [v]) else e)
  else m ++ [(k, [v])]

/-- Rust `FLAG_MAPPINGS`: base inserts plus the verbose-flag loop. -/
def FLAG_MAPPINGS : List (FlagMappingKey × List PackageFlagMapping) :=
  verboseFlagKeys.foldl flagMapPushVerbose FLAG_MAPPINGS_BASE

/-- Rust `FLAG_MAPPINGS.get(&key)`. -/
def flagMappingsGet (k : FlagMappingKey) : Option (List PackageFlagMapping) :=
  (FLAG_MAPPINGS.find? (fun e => e.1 = k)).map (·.2)

/-- Rust `detect_package_manager`: manager plus the index where the operation token
is expected. -/
def detect_package_manager (cmd : String) :
    Except PackageTranslationError (PackageManager × Nat) :=
  let c := rustToLower cmd
  if c = "apt" ∨ c = "apt-get" ∨ c = "aptitude" then .ok (.Apt, 1)
  else if c = "yum" then .ok (.Yum, 1)
  else if c = "dnf" then .ok (.Dnf, 1)
  else if c = "pacman" then .ok (.Pacman, 1)
  else if c = "zypper" then .ok (.Zypper, 1)
  else if c = "apk" then .ok (.Apk, 1)
  else if c = "emerge" then .ok (.Emerge, 1)
  else if c = "xbps-install" ∨ c = "xbps-remove" ∨ c = "xbps-query" then .ok (.Xbps, 1)
  else if c = "nix-env" ∨ c = "nix" then .ok (.Nix, 1)
  else .error (.NotPackageManagerCommand cmd)

/-- Rust `detect_operation`: per-manager operation-token grammar (the dead
mixed-case arms `-iA`, `-uA`, `-C` of the Rust match are kept verbatim even
though `op_str` is already lowercased). -/
def detect_operation (pm : PackageManager) (parts : List String) :
    Except PackageTranslationError PackageOperation :=
  match parts with
  | [] => .error (.NotPackageManagerCommand "")
  | p :: _ =>
    let op_str := rustToLower p
    match pm with
    | .Apt =>
      if op_str = "install" then .ok .Install
      else if op_str = "remove" ∨ op_str = "uninstall" ∨ op_str = "purge" then .ok .Remove
      else if op_str = "update" then .ok .Update
      else if op_str = "upgrade" ∨ op_str = "full-upgrade" ∨ op_str = "dist-upgrade" then .ok .Upgrade
      else if op_str = "search" then .ok .Search
      else if op_str = "show" ∨ op_str = "info" then .ok .Info
      else if op_str = "list" then .ok .List
      else if op_str = "clean" ∨ op_str = "autoclean" then .ok .Clean
      else if op_str = "autoremove" then .ok .AutoRemove
      else .error (.UnsupportedOperation op_str)
    | .Yum | .Dnf =>
      if op_str = "install" then .ok .Install
      else if op_str = "remove" ∨ op_str = "erase" then .ok .Remove
      else if op_str = "check-update" then .ok .Update
      else if op_str = "update" ∨ op_str = "upgrade" then .ok .Upgrade
      else if op_str = "search" then .ok .Search
      else if op_str = "info" then .ok .Info
      else if op_str = "list" then .ok .List
      else if op_str = "clean" then .ok .Clean
      else if op_str = "autoremove" then .ok .AutoRemove
      else .error (.UnsupportedOperation op_str)
    | .Pacman =>
      -- Pacman uses flags rather than subcommands
      if rustStartsWith op_str "-" then
        if op_str = "-syu" then .ok .Upgrade
        else if op_str = "-sy" then .ok .Update
        else if op_str = "-s" then .ok .Install
        else if op_str = "-rs" then .ok .Remove
        else if op_str = "-r" then .ok .Remove
        else if op_str = "-ss" then .ok .Search
        else if op_str = "-si" ∨ op_str = "-qi" then .ok .Info
        else if op_str = "-q" then .ok .List
        else if op_str = "-sc" ∨ op_str = "-scc" then .ok .Clean
        else .error (.UnsupportedOperation op_str)
      else .error (.UnsupportedOperation op_str)
    | .Zypper =>
      if op_str = "install" ∨ op_str = "in" then .ok .Install
      else if op_str = "remove" ∨ op_str = "rm" then .ok .Remove
      else if op_str = "refresh" ∨ op_str = "ref" then .ok .Update
      else if op_str = "update" ∨ op_str = "up" then .ok .Upgrade
      else if op_str = "search" ∨ op_str = "se" then .ok .Search
      else if op_str = "info" ∨ op_str = "if" then .ok .Info
      else if op_str = "packages" then .ok .List
      else if op_str = "clean" then .ok .Clean
      else .error (.UnsupportedOperation op_str)
    | .Apk =>
      if op_str = "add" then .ok .Install
      else if op_str = "del" then .ok .Remove
      else if op_str = "update" then .ok .Update
      else if op_str = "upgrade" then .ok .Upgrade
      else if op_str = "search" then .ok .Search
      else if op_str = "info" then .ok .Info
      else if op_str = "list" then .ok .List
      else if op_str = "cache" then .ok .Clean
      else .error (.UnsupportedOperation op_str)
    | .Emerge =>
      if op_str = "" ∨ op_str = "-av" ∨ op_str = "-a" then .ok .Install
      else if op_str = "--unmerge" ∨ op_str = "-C" then .ok .Remove
      else if op_str = "--sync" then .ok .Update
      else if op_str = "--update" ∨ op_str = "-u" then .ok .Upgrade
      else if op_str = "--search" ∨ op_str = "-s" then .ok .Search
      else if op_str = "--info" then .ok .Info
      else if op_str = "--depclean" then .ok .Clean
      else .error (.UnsupportedOperation op_str)
    | .Xbps =>
      if op_str = "-su" then .ok .Upgrade
      else if op_str = "-s" then .ok .Install
      else if op_str = "-rs" then .ok .Search
      else if op_str = "-r" then .ok .Info
      else if op_str = "-l" then .ok .List
      else if op_str = "-o" then .ok .Clean
      else if op_str = "" then .ok .Remove
      else .error (.UnsupportedOperation op_str)
    | .Nix =>
      if op_str = "-i" ∨ op_str = "-iA" then .ok .Install
      else if op_str = "-e" then .ok .Remove
      else if op_str = "-u" ∨ op_str = "-uA" then .ok .Upgrade
      else if op_str = "-qa" then .ok .List
      else if rustStartsWith op_str "search" then .ok .Search
      else .error (.UnsupportedOperation op_str)
    | .Generic => .error (.UnsupportedOperation op_str)

/-- Rust `parse_package_command`: optional `sudo`, manager token, operation token,
remaining arguments. -/
def parse_package_command (input : String) :
    Except PackageTranslationError (PackageManager × PackageOperation × List String) :=
  let trimmed := rustTrim input
  if trimmed = "" then .error .EmptyCommand
  else
    let parts := rustSplitWhitespace trimmed
    match parts with
    | [] => .error .EmptyCommand
    | p0 :: restParts =>
      let detected :=
        if p0 = "sudo" ∧ parts.length > 1 then
          detect_package_manager (restParts.headD "")
        else detect_package_manager p0
      match detected with
      | .error e => .error e
      | .ok (pm, idx0) =>
        let start_idx := if p0 = "sudo" then idx0 + 1 else idx0
        if start_idx ≥ parts.length then
          .error (.NotPackageManagerCommand input)
        else
          match detect_operation pm (parts.drop start_idx) with
          | .error e => .error e
          | .ok operation => .ok (pm, operation, parts.drop (start_idx + 1))

/-- One package flag rule tried against one flag token: `none` when the rule
does not decide the token (the loop moves to the next rule). -/
def pkgFlagRuleApply (flag : String) (mapping : PackageFlagMapping) :
    Option (List String) :=
  -- Handle exact match
  if flag = mapping.source ∨ rustToLower flag = rustToLower mapping.source then
    some (if mapping.target ≠ "" then
            (rustSplitWhitespace mapping.target).filter (· ≠ "")
          else [])
  -- Handle flags with values (e.g., --option=value)
  else if rustStartsWith flag mapping.source ∧ rustContainsChar flag '=' then
    let p0 : String := ⟨flag.data.takeWhile (· ≠ '=')⟩
    let p1 : String := ⟨(flag.data.dropWhile (· ≠ '=')).drop 1⟩
    if p0 = mapping.source then
      some (if mapping.target ≠ "" then
              (if rustContainsChar mapping.target '=' then [mapping.target ++ "=" ++ p1]
               else [mapping.target, p1])
            else [])
    else none
  else none

/-- The inner rule loop of the package-manager `translate_flags`. -/
def pkgScanFlagRules (flag : String) : List PackageFlagMapping → Option (List String)
  | [] => none
  | m :: rest =>
    match pkgFlagRuleApply flag m with
    | some out => some out
    | none => pkgScanFlagRules flag rest

/-- One iteration of the `for flag in flags` loop of the package-manager
`translate_flags`, acting on the accumulated `(translated_flags, result)`. -/
def pkgTranslateFlagsStep (flag_mappings : Option (List PackageFlagMapping))
    (to_pm : PackageManager) (operation : PackageOperation)
    (acc : List String × PackageTranslationResult) (flag : String) :
    List String × PackageTranslationResult :=
  match (match flag_mappings with
         | some mappings => pkgScanFlagRules flag mappings
         | none => none) with
  | some out => (acc.1 ++ out, acc.2)
  | none =>
    (acc.1 ++ [flag],
     { acc.2 with
       warnings := acc.2.warnings ++
         ["Flag \x27" ++ flag ++ "\x27 has no direct equivalent in "
          ++ to_pm.display ++ " for " ++ operation.display ++ " operation"] })

namespace package_manager

/-- Rust `translate_flags` of package_manager.rs: per-operation flag translation;
unmapped flags are kept and warned about. -/
def translate_flags (flags : List String) (from_pm to_pm : PackageManager)
    (operation : PackageOperation) (result : PackageTranslationResult) :
    List String × PackageTranslationResult :=
  let flag_mappings := flagMappingsGet (FlagMappingKey.mk from_pm to_pm operation)
  flags.foldl (pkgTranslateFlagsStep flag_mappings to_pm operation) ([], result)

end package_manager

/-- Rust `translate_package_command`. -/
def translate_package_command (input : String) (from_pm to_pm : PackageManager) :
    Except PackageTranslationError PackageTranslationResult :=
  let trimmed := rustTrim input
  if trimmed = "" then .error .EmptyCommand
  else if from_pm = to_pm then
    .ok (PackageTranslationResult.new trimmed trimmed from_pm to_pm)
  else
    match parse_package_command trimmed with
    | .error e => .error e
    | .ok (detected_pm, operation, args) =>
      -- Get the target operation mapping
      match operationMappingsGet (OperationKey.mk to_pm operation) with
      | none => .error (.UnsupportedOperation operation.display)
      | some mapping =>
        let result := PackageTranslationResult.new "" trimmed from_pm to_pm
        -- Verify detected PM matches expected from_pm
        let result :=
          if detected_pm ≠ from_pm then
            { result with warnings := result.warnings ++
                ["Command appears to be for " ++ detected_pm.display
                 ++ " but was specified as " ++ from_pm.display] }
          else result
        let result := { result with requires_sudo := mapping.requires_sudo }
        -- Handle sudo prefix
        let command :=
          if rustStartsWith trimmed "sudo " ∧ mapping.requires_sudo then "sudo " else ""
        let command := command ++ mapping.command
        -- Separate flags from package names
        let flags := args.filter (fun a => rustStartsWith a "-" || rustStartsWith a "/")
        let packages := args.filter (fun a => !(rustStartsWith a "-" || rustStartsWith a "/"))
        -- Translate flags
        let (translated_flags, result) :=
          package_manager.translate_flags flags from_pm to_pm operation result
        let command := command ++
          (if translated_flags ≠ [] then " " ++ String.intercalate " " translated_flags else "")
        let command := command ++
          (if packages ≠ [] then " " ++ String.intercalate " " packages else "")
        let result := { result with command := command }
        -- Add notes if any
        match mapping.notes with
        | some notes => .ok { result with warnings := result.warnings ++ [notes] }
        | none => .ok result

/-! ## Supporting lemmas -/

theorem string_mk_append (a b : List Char) :
    String.mk a ++ String.mk b = String.mk (a ++ b) := rfl

theorem string_empty_append (s : String) : "" ++ s = s := by
  cases s; rfl

theorem splitCompoundGo_flatten (cs cur : List Char) :
    (splitCompoundGo cs cur).flatten = cur ++ cs := by
  induction cs, cur using splitCompoundGo.induct with
  | case1 cur h => simp [splitCompoundGo, h]
  | case2 cur h =>
    simp only [ne_eq, not_not] at h
    simp [splitCompoundGo, h]
  | case3 c cur h =>
    by_cases hc : cur = [] <;> simp [splitCompoundGo, h, hc]
  | case4 c cur h h2 =>
    simp [splitCompoundGo, h, h2]
  | case5 c cur h h2 =>
    simp only [ne_eq, not_not] at h2
    simp at h2
  | case6 c1 c2 rest cur h ih =>
    by_cases hc : cur = [] <;>
      simp [splitCompoundGo, h, hc, ih, List.append_assoc]
  | case7 c1 c2 rest cur h h2 ih =>
    by_cases hc : cur = [] <;>
      simp [splitCompoundGo, h, h2, hc, ih, List.append_assoc]
  | case8 c1 c2 rest cur h h2 ih =>
    simp [splitCompoundGo, h, h2, ih, List.append_assoc]

theorem foldl_append_mk (l : List (List Char)) :
    ∀ acc : String, (l.map String.mk).foldl (fun r s => r ++ s) acc
      = acc ++ String.mk l.flatten := by
  induction l with
  | nil => intro acc; cases acc; simp [String.join]
  | cons a l ih =>
    intro acc
    simp only [List.map_cons, List.foldl_cons, List.flatten_cons, ih]
    rw [← string_mk_append, ← String.append_assoc]

theorem string_join_map_mk (l : List (List Char)) :
    String.join (l.map String.mk) = String.mk l.flatten := by
  rw [String.join, foldl_append_mk, string_empty_append]

theorem splitCompoundGo_ne_nil (cs cur : List Char) :
    ∀ l ∈ splitCompoundGo cs cur, l ≠ [] := by
  induction cs, cur using splitCompoundGo.induct with
  | case1 cur h => simp [splitCompoundGo, h]
  | case2 cur h =>
    simp only [ne_eq, not_not] at h
    simp [splitCompoundGo, h]
  | case3 c cur h =>
    by_cases hc : cur = [] <;> simp [splitCompoundGo, h, hc]
  | case4 c cur h h2 =>
    simp [splitCompoundGo, h, h2]
  | case5 c cur h h2 =>
    simp only [ne_eq, not_not] at h2
    simp at h2
  | case6 c1 c2 rest cur h ih =>
    by_cases hc : cur = [] <;>
      simp_all [splitCompoundGo, h, hc]
  | case7 c1 c2 rest cur h h2 ih =>
    rw [splitCompoundGo, if_neg h, if_pos h2]
    intro l hl
    simp only [List.mem_append, List.mem_singleton] at hl
    rcases hl with (h3 | h3) | h3
    · by_cases hc : cur = []
      · simp [hc] at h3
      · simp [hc] at h3; subst h3; exact hc
    · subst h3; simp
    · exact ih l h3
  | case8 c1 c2 rest cur h h2 ih =>
    rw [splitCompoundGo, if_neg h, if_neg h2]
    exact ih

/-- C9: concatenating all entries of the splitter reproduces the input. -/
theorem split_compound_roundtrip (s : String) :
    String.join (split_compound_command s) = s := by
  rw [split_compound_command, string_join_map_mk, splitCompoundGo_flatten,
    List.nil_append]

/-- C3 amended: concrete splits plus never-empty segments. -/
theorem split_compound_facts :
    split_compound_command "a && b || c" = ["a ", "&&", " b ", "||", " c"]
    ∧ split_compound_command "a & b" = ["a & b"]
    ∧ split_compound_command "a||b" = ["a", "||", "b"]
    ∧ split_compound_command "a;b|c" = ["a", ";", "b", "|", "c"]
    ∧ ∀ s : String, (split_compound_command s).all (fun p => decide (p ≠ "")) = true := by
  refine ⟨by decide, by decide, by decide, by decide, ?_⟩
  intro s
  rw [List.all_eq_true]
  intro p hp
  rw [split_compound_command] at hp
  obtain ⟨l, hl, rfl⟩ := List.mem_map.mp hp
  have h2 := splitCompoundGo_ne_nil s.data [] l hl
  simp only [ne_eq, decide_eq_true_eq]
  intro hmk
  exact h2 (congrArg String.data hmk)

/-- C3 counterexample: the splitter does not trim segments. -/
theorem split_compound_not_trimmed :
    split_compound_command "a && b || c" ≠ ["a", "&&", "b", "||", "c"] := by decide

/-! ## C2, C5, C10, C1 -/

/-- C2: drive-letter/mount-point round trip for `C:\Users\john`. -/
theorem path_drive_roundtrip :
    translate_path "C:\\Users\\john" Os.Windows Os.Linux =
      .ok ⟨"/mnt/c/Users/john", "C:\\Users\\john", .Windows, .Linux, true, []⟩
    ∧ translate_path "/mnt/c/Users/john" Os.Linux Os.Windows =
      .ok ⟨"C:\\Users\\john", "/mnt/c/Users/john", .Linux, .Windows, true, []⟩ := by
  constructor <;> decide

/-- C5 counterexample: `" "` is a non-empty string, yet same-OS translation
fails with `EmptyCommand` instead of succeeding with the input. -/
theorem same_os_whitespace_fails :
    " " ≠ "" ∧ translate_command " " Os.Linux Os.Linux = .error .EmptyCommand := by
  constructor <;> decide

/-- C5 amended: same-OS translation is the identity on the *trimmed* input,
with no warnings, whenever the trimmed input is non-empty. -/
theorem same_os_identity (x : String) (os : Os) (h : rustTrim x ≠ "") :
    translate_command x os os =
      .ok (TranslationResult.new (rustTrim x) (rustTrim x) os os) := by
  rw [translate_command]
  rw [if_neg h, if_pos rfl]

theorem same_os_identity_witness :
    rustTrim " ls -la " ≠ "" ∧
    translate_command " ls -la " Os.Linux Os.Linux =
      .ok (TranslationResult.new "ls -la" "ls -la" Os.Linux Os.Linux) :=
  ⟨by decide, by
    have h := same_os_identity " ls -la " Os.Linux (by decide)
    rw [h]; decide⟩

/-- C10: the string parser never produces `Os.Unknown`; any casing of the
string `unknown` parses to `none`. -/
theorem os_parse_never_unknown :
    (∀ s : String, Os.parse s ≠ some Os.Unknown)
    ∧ (∀ s : String, rustToLower s = "unknown" → Os.parse s = none) := by
  constructor
  · intro s
    rw [Os.parse, Os.from_str]
    simp only [Except.toOption]
    split
    · next a heq =>
        repeat' split at heq
        all_goals (cases heq <;> simp)
    · simp
  · intro s h
    rw [Os.parse, Os.from_str, h]
    rfl

theorem os_parse_never_unknown_witness :
    rustToLower "UnKnOwN" = "unknown" ∧ Os.parse "UnKnOwN" = none :=
  ⟨by decide, os_parse_never_unknown.2 "UnKnOwN" (by decide)⟩

/-! ## C1: first-match flag translation -/

theorem rustSplitWhitespace_empty : rustSplitWhitespace "" = [] := by decide

/-- The inner rule scan returns the first matching rule's output. -/
theorem scanFlagRules_first (arg : String) (pre post : List FlagMapping)
    (fm : FlagMapping) (out : List String)
    (hpre : ∀ fm2 ∈ pre, flagRuleApply arg fm2 = none)
    (hfm : flagRuleApply arg fm = some out) :
    scanFlagRules arg (pre ++ fm :: post) = some out := by
  induction pre with
  | nil => simp [scanFlagRules, hfm]
  | cons p pre ih =>
    have hp := hpre p (List.mem_cons_self p pre)
    rw [List.cons_append, scanFlagRules, hp]
    exact ih (fun fm2 h2 => hpre fm2 (List.mem_cons_of_mem p h2))

/-- C1: the flag translator scans rules in declared order and the first rule
matching a token (exactly, case-insensitively, or as a prefix) alone decides
that token's translation — later rules, including any whose source is a
strict prefix or extension of the matching rule's source, are not consulted,
and no warning or unmapped-flag marking is produced for a matched token.
The first conjunct spells out the exact-match action: the target is emitted
split on whitespace, so an empty target silently drops the token. -/
theorem flag_first_match_wins :
    (∀ (arg : String) (fm : FlagMapping),
      (arg = fm.source ∨ rustToLower arg = rustToLower fm.source) →
      flagRuleApply arg fm = some (rustSplitWhitespace fm.target))
    ∧ (∀ (arg : String) (m : CommandMapping) (pre post : List FlagMapping)
        (fm : FlagMapping) (out : List String) (res : TranslationResult),
      m.flag_mappings = pre ++ fm :: post →
      (∀ fm2 ∈ pre, flagRuleApply arg fm2 = none) →
      flagRuleApply arg fm = some out →
      translate_flags [arg] m res = (out, res)) := by
  constructor
  · intro arg fm h
    rw [flagRuleApply, if_pos h]
    by_cases ht : fm.target = ""
    · rw [ht, rustSplitWhitespace_empty]
      simp
    · simp [ht]
  · intro arg m pre post fm out res hsplit hpre hfm
    rw [translate_flags, List.foldl_cons, List.foldl_nil, translateFlagsStep,
      hsplit, scanFlagRules_first arg pre post fm out hpre hfm]
    simp

/-- C1 witness: against rules `[/w → -C, /o → (drop), /o:n → --sort=name]`,
the token `/o:n` is decided by the earlier `/o` prefix rule (dropping it),
not by the later exact `/o:n` rule. -/
theorem flag_first_match_wins_witness :
    (∀ fm2 ∈ [FlagMapping.new "/w" "-C"], flagRuleApply "/o:n" fm2 = none)
    ∧ flagRuleApply "/o:n" (FlagMapping.new "/o" "") = some []
    ∧ translate_flags ["/o:n"]
        ((CommandMapping.new "dir" "ls").with_flags
          [FlagMapping.new "/w" "-C", FlagMapping.new "/o" "",
           FlagMapping.new "/o:n" "--sort=name"])
        (TranslationResult.new "" "dir /o:n" .Windows .Linux) =
      ([], TranslationResult.new "" "dir /o:n" .Windows .Linux) :=
  ⟨by decide, by decide,
   flag_first_match_wins.2 "/o:n"
     ((CommandMapping.new "dir" "ls").with_flags
       [FlagMapping.new "/w" "-C", FlagMapping.new "/o" "",
        FlagMapping.new "/o:n" "--sort=name"])
     [FlagMapping.new "/w" "-C"]
     [FlagMapping.new "/o:n" "--sort=name"]
     (FlagMapping.new "/o" "") []
     (TranslationResult.new "" "dir /o:n" .Windows .Linux)
     (by decide) (by decide) (by decide)⟩

/-! ## C8: the SameOs error variant is never produced -/

theorem translate_command_not_sameos (input : String) (f t : Os) :
    is_same_os_error (translate_command input f t) = false := by
  simp only [translate_command]
  repeat' split
  all_goals rfl

theorem except_map_eq_error {α β ε : Type} (g : α → β) (x : Except ε α) (e : ε)
    (h : x.map g = .error e) : x = .error e := by
  cases x <;> simp [Except.map] at h ⊢
  exact h

theorem translateSegments_error (f t : Os) (parts : List String) :
    ∀ (res : TranslationResult) (e : TranslationError),
    translateSegments f t parts res = .error e →
    ∃ s, translate_command s f t = .error e := by
  induction parts with
  | nil => intro res e h; simp [translateSegments] at h
  | cons part rest ih =>
    intro res e h
    rw [translateSegments] at h
    split at h
    · exact ih _ e (except_map_eq_error _ _ e h)
    · split at h
      · split at h
        · exact ih _ e (except_map_eq_error _ _ e h)
        · exact ih _ e (except_map_eq_error _ _ e h)
        · next htr => exact ⟨rustTrim part, by rw [htr]; cases h; rfl⟩
      · exact ih _ e h

/-- C8: neither `translate_command` nor `translate_compound_command` ever
returns the `SameOs` error variant, for any input and OS pair. -/
theorem sameos_never_raised (input : String) (f t : Os) :
    is_same_os_error (translate_command input f t) = false
    ∧ is_same_os_error (translate_compound_command input f t) = false := by
  refine ⟨translate_command_not_sameos input f t, ?_⟩
  simp only [translate_compound_command]
  split
  · rfl
  · split
    · rfl
    · split
      · exact translate_command_not_sameos _ f t
      · rcases htr : translateSegments f t
            (split_compound_command (rustTrim input))
            (TranslationResult.new "" (rustTrim input) f t) with e | pr
        · obtain ⟨s, hs⟩ := translateSegments_error f t _ _ e htr
          have h2 := translate_command_not_sameos s f t
          rw [hs] at h2
          exact h2
        · rfl

/-! ## C4: best-effort compound translation -/

theorem except_map_eq_ok {α β ε : Type} (g : α → β) (x : Except ε α) (b : β)
    (h : x.map g = .ok b) : ∃ a, x = .ok a ∧ b = g a := by
  cases x with
  | error e => simp [Except.map] at h
  | ok a => exact ⟨a, rfl, by simpa [Except.map] using h.symm⟩

/-- A segment the compound loop can absorb: an operator, a blank, a segment
that translates, or one that fails only with `CommandNotFound`. -/
def segBenign (f t : Os) (p : String) : Prop :=
  COMPOUND_OPERATORS.contains (rustTrim p) = true
  ∨ rustTrim p = ""
  ∨ (∃ r, translate_command (rustTrim p) f t = .ok r)
  ∨ (∃ c, translate_command (rustTrim p) f t = .error (.CommandNotFound c))

/-- The warning the loop records for an untranslatable segment. -/
def notTranslatedWarning (p : String) : String :=
  "Command \x27" ++ ((rustSplitWhitespace (rustTrim p)).headD (rustTrim p))
    ++ "\x27 was not translated"

theorem translateSegments_warnings_mono (f t : Os) (parts : List String) :
    ∀ (res : TranslationResult) (out : List String × TranslationResult),
    translateSegments f t parts res = .ok out →
    ∃ ext, out.2.warnings = res.warnings ++ ext := by
  induction parts with
  | nil =>
    intro res out h
    simp only [translateSegments] at h
    cases h
    exact ⟨[], by simp⟩
  | cons part rest ih =>
    intro res out h
    simp only [translateSegments] at h
    split at h
    · obtain ⟨pr, hpr, hout⟩ := except_map_eq_ok _ _ _ h
      obtain ⟨ext, hext⟩ := ih _ _ hpr
      exact ⟨ext, by rw [hout]; exact hext⟩
    · split at h
      · split at h
        · next cmd_result heq =>
          obtain ⟨pr, hpr, hout⟩ := except_map_eq_ok _ _ _ h
          obtain ⟨ext, hext⟩ := ih _ _ hpr
          rw [hout]
          exact ⟨cmd_result.warnings ++ ext, by
            simp only [hext]; simp [List.append_assoc]⟩
        · obtain ⟨pr, hpr, hout⟩ := except_map_eq_ok _ _ _ h
          obtain ⟨ext, hext⟩ := ih _ _ hpr
          rw [hout]
          refine ⟨["Command \x27" ++ ((rustSplitWhitespace (rustTrim part)).headD (rustTrim part))
            ++ "\x27 was not translated"] ++ ext, ?_⟩
          simp only [hext]
          simp [List.append_assoc]
        · exact absurd h (by simp)
      · exact ih _ _ h

theorem translateSegments_keeps (f t : Os) (parts : List String) :
    ∀ (res : TranslationResult) (out : List String × TranslationResult)
      (p : String) (c : String),
    p ∈ parts →
    COMPOUND_OPERATORS.contains (rustTrim p) = false →
    rustTrim p ≠ "" →
    translate_command (rustTrim p) f t = .error (.CommandNotFound c) →
    translateSegments f t parts res = .ok out →
    rustTrim p ∈ out.1 ∧ notTranslatedWarning p ∈ out.2.warnings := by
  induction parts with
  | nil => intro res out p c hp; simp at hp
  | cons part rest ih =>
    intro res out p c hp hcont hne htc h
    simp only [translateSegments] at h
    rcases List.mem_cons.mp hp with rfl | hptail
    · -- p is the head segment: the CommandNotFound arm fires
      rw [if_neg (by rw [hcont]; simp), if_pos hne, htc] at h
      obtain ⟨pr, hpr, hout⟩ := except_map_eq_ok _ _ _ h
      obtain ⟨ext, hext⟩ := translateSegments_warnings_mono f t rest _ _ hpr
      subst hout
      constructor
      · exact List.mem_cons_self _ _
      · rw [hext]
        apply List.mem_append_left
        apply List.mem_append_right
        simp [notTranslatedWarning]
    · -- p is in the tail: every possible head disposition recurses
      split at h
      · obtain ⟨pr, hpr, hout⟩ := except_map_eq_ok _ _ _ h
        obtain ⟨h1, h2⟩ := ih _ _ p c hptail hcont hne htc hpr
        subst hout
        exact ⟨List.mem_cons_of_mem _ h1, h2⟩
      · split at h
        · split at h
          · obtain ⟨pr, hpr, hout⟩ := except_map_eq_ok _ _ _ h
            obtain ⟨h1, h2⟩ := ih _ _ p c hptail hcont hne htc hpr
            subst hout
            exact ⟨List.mem_cons_of_mem _ h1, h2⟩
          · obtain ⟨pr, hpr, hout⟩ := except_map_eq_ok _ _ _ h
            obtain ⟨h1, h2⟩ := ih _ _ p c hptail hcont hne htc hpr
            subst hout
            exact ⟨List.mem_cons_of_mem _ h1, h2⟩
          · exact absurd h (by simp)
        · exact ih _ _ p c hptail hcont hne htc h

theorem translateSegments_total (f t : Os) (parts : List String) :
    ∀ res : TranslationResult,
    (∀ p ∈ parts, segBenign f t p) →
    ∃ out, translateSegments f t parts res = .ok out := by
  induction parts with
  | nil => intro res _; exact ⟨([], res), rfl⟩
  | cons part rest ih =>
    intro res hall
    have hrest : ∀ p ∈ rest, segBenign f t p :=
      fun p hp => hall p (List.mem_cons_of_mem _ hp)
    by_cases hcont : COMPOUND_OPERATORS.contains (rustTrim part) = true
    · obtain ⟨pr, hpr⟩ := ih res hrest
      refine ⟨(rustTrim part :: pr.1, pr.2), ?_⟩
      simp only [translateSegments]
      rw [if_pos hcont, hpr]
      rfl
    · by_cases hemp : rustTrim part = ""
      · obtain ⟨pr, hpr⟩ := ih res hrest
        refine ⟨pr, ?_⟩
        simp only [translateSegments]
        rw [if_neg hcont, if_neg (by simp [hemp])]
        exact hpr
      · rcases hall part (List.mem_cons_self _ _) with hop | he | ⟨r, hr⟩ | ⟨c, hc⟩
        · exact absurd hop hcont
        · exact absurd he hemp
        · obtain ⟨pr, hpr⟩ := ih
            { res with
              warnings := res.warnings ++ r.warnings
              had_unmapped_flags := res.had_unmapped_flags || r.had_unmapped_flags } hrest
          refine ⟨(r.command :: pr.1, pr.2), ?_⟩
          have hstep : translateSegments f t (part :: rest) res =
              Except.map (fun pr => (r.command :: pr.1, pr.2))
                (translateSegments f t rest
                  { res with
                    warnings := res.warnings ++ r.warnings
                    had_unmapped_flags := res.had_unmapped_flags || r.had_unmapped_flags }) := by
            simp only [translateSegments]
            rw [if_neg hcont, if_pos hemp]
            split
            · next cmd heq => rw [hr] at heq; cases heq; rfl
            · next heq => rw [hr] at heq; simp at heq
            · next e2 heq => rw [hr] at heq; simp at heq
          rw [hstep, hpr]
          rfl
        · obtain ⟨pr, hpr⟩ := ih
            { res with
              warnings := res.warnings ++ [notTranslatedWarning part] } hrest
          refine ⟨(rustTrim part :: pr.1, pr.2), ?_⟩
          have hstep : translateSegments f t (part :: rest) res =
              Except.map (fun pr => (rustTrim part :: pr.1, pr.2))
                (translateSegments f t rest
                  { res with
                    warnings := res.warnings ++ [notTranslatedWarning part] }) := by
            simp only [translateSegments]
            rw [if_neg hcont, if_pos hemp]
            split
            · next cmd heq => rw [hc] at heq; simp at heq
            · next heq => rw [hc] at heq; cases heq; rfl
            · next e2 heq =>
              rw [hc] at heq; cases heq
              exact (e2 c rfl).elim
          rw [hstep, hpr]
          rfl

theorem translateSegments_aborts (f t : Os) (pre : List String) :
    ∀ (p : String) (post : List String) (res : TranslationResult)
      (e : TranslationError),
    (∀ q ∈ pre, segBenign f t q) →
    COMPOUND_OPERATORS.contains (rustTrim p) = false →
    rustTrim p ≠ "" →
    translate_command (rustTrim p) f t = .error e →
    (∀ c, e ≠ .CommandNotFound c) →
    translateSegments f t (pre ++ p :: post) res = .error e := by
  induction pre with
  | nil =>
    intro p post res e _ hcont hne htc hnc
    simp only [List.nil_append, translateSegments]
    rw [if_neg (by rw [hcont]; simp), if_pos hne]
    split
    · next cmd heq => rw [htc] at heq; simp at heq
    · next cmd heq =>
      rw [htc] at heq
      cases heq
      exact absurd rfl (hnc cmd)
    · next e2 heq =>
      rw [htc] at heq
      cases heq
      rfl
  | cons q pre ih =>
    intro p post res e hall hcont hne htc hnc
    have hpre : ∀ q2 ∈ pre, segBenign f t q2 :=
      fun q2 h2 => hall q2 (List.mem_cons_of_mem _ h2)
    have hrec := ih p post
    simp only [List.cons_append, translateSegments, List.append_eq]
    by_cases hq : COMPOUND_OPERATORS.contains (rustTrim q) = true
    · rw [if_pos hq, hrec res e hpre hcont hne htc hnc]
      rfl
    · by_cases hqe : rustTrim q = ""
      · rw [if_neg hq, if_neg (by simp [hqe])]
        exact hrec res e hpre hcont hne htc hnc
      · rcases hall q (List.mem_cons_self _ _) with hop | he | ⟨r, hr⟩ | ⟨c, hc⟩
        · exact absurd hop hq
        · exact absurd he hqe
        · rw [if_neg hq, if_pos hqe]
          split
          · next cmd heq =>
            rw [hr] at heq; cases heq
            rw [hrec _ e hpre hcont hne htc hnc]
            rfl
          · next heq => rw [hr] at heq; simp at heq
          · next e2 heq => rw [hr] at heq; simp at heq
        · rw [if_neg hq, if_pos hqe]
          split
          · next cmd heq => rw [hc] at heq; simp at heq
          · next heq =>
            rw [hc] at heq; cases heq
            rw [hrec _ e hpre hcont hne htc hnc]
            rfl
          · next e2 heq =>
            rw [hc] at heq; cases heq
            exact (e2 c rfl).elim

/-- C4: the compound translator is best-effort per segment: a segment failing
with `CommandNotFound` is kept verbatim and recorded as a warning (first
conjunct), a compound whose segments all translate, fail only with
`CommandNotFound`, or are operators/blanks succeeds as a whole (second and
fourth conjuncts), while any other per-segment error aborts the whole call
and is propagated (third conjunct); concretely,
`translate_compound_command "dir && unknowncmd" Windows Linux` succeeds,
translates `dir` to `ls`, keeps `&&` and `unknowncmd`, and records one
warning (fifth conjunct). -/
theorem compound_best_effort :
    (∀ (f t : Os) (parts : List String) (res : TranslationResult)
       (out : List String × TranslationResult) (p c : String),
      p ∈ parts →
      COMPOUND_OPERATORS.contains (rustTrim p) = false →
      rustTrim p ≠ "" →
      translate_command (rustTrim p) f t = .error (.CommandNotFound c) →
      translateSegments f t parts res = .ok out →
      rustTrim p ∈ out.1 ∧ notTranslatedWarning p ∈ out.2.warnings)
    ∧ (∀ (f t : Os) (parts : List String) (res : TranslationResult),
      (∀ p ∈ parts, segBenign f t p) →
      ∃ out, translateSegments f t parts res = .ok out)
    ∧ (∀ (f t : Os) (pre : List String) (p : String) (post : List String)
        (res : TranslationResult) (e : TranslationError),
      (∀ q ∈ pre, segBenign f t q) →
      COMPOUND_OPERATORS.contains (rustTrim p) = false →
      rustTrim p ≠ "" →
      translate_command (rustTrim p) f t = .error e →
      (∀ c, e ≠ .CommandNotFound c) →
      translateSegments f t (pre ++ p :: post) res = .error e)
    ∧ (∀ (input : String) (f t : Os),
      f ≠ t → rustTrim input ≠ "" →
      (split_compound_command (rustTrim input)).length ≠ 1 →
      (∀ p ∈ split_compound_command (rustTrim input), segBenign f t p) →
      ∃ r, translate_compound_command input f t = .ok r)
    ∧ translate_compound_command "dir && unknowncmd" .Windows .Linux =
        .ok ⟨"ls && unknowncmd", "dir && unknowncmd", .Windows, .Linux,
             ["Command \x27unknowncmd\x27 was not translated"], false⟩ := by
  refine ⟨translateSegments_keeps, translateSegments_total,
    translateSegments_aborts, ?_, by decide⟩
  intro input f t hft hne hlen hall
  obtain ⟨out, hout⟩ := translateSegments_total f t
    (split_compound_command (rustTrim input))
    (TranslationResult.new "" (rustTrim input) f t) hall
  refine ⟨{ out.2 with command := String.intercalate " " out.1 }, ?_⟩
  simp only [translate_compound_command]
  rw [if_neg hne, if_neg hft, if_neg hlen, hout]

/-- C4 witness: the best-effort law applied to the concrete compound
`dir && unknowncmd` (Windows → Linux). -/
theorem compound_best_effort_witness :
    rustTrim " unknowncmd" ∈ (["ls", "&&", "unknowncmd"] : List String)
    ∧ notTranslatedWarning " unknowncmd" ∈
        ["Command \x27unknowncmd\x27 was not translated"] :=
  compound_best_effort.1 Os.Windows Os.Linux
    ["dir ", "&&", " unknowncmd"]
    (TranslationResult.new "" "dir && unknowncmd" .Windows .Linux)
    (["ls", "&&", "unknowncmd"],
     ⟨"", "dir && unknowncmd", .Windows, .Linux,
      ["Command \x27unknowncmd\x27 was not translated"], false⟩)
    " unknowncmd" "unknowncmd"
    (by decide) (by decide) (by decide) (by decide) (by decide)

/-! ## C7: which path-translation branches warn -/

theorem startsWith_shape (s p : String) (h : rustStartsWith s p = true) :
    ∃ rest, s.data = p.data ++ rest := by
  rw [rustStartsWith, List.isPrefixOf_iff_prefix] at h
  obtain ⟨rest, hrest⟩ := h
  exact ⟨rest, hrest.symm⟩

theorem ne_empty_of_data_cons (s : String) (c : Char) (l : List Char)
    (h : s.data = c :: l) : s ≠ "" := by
  intro he
  rw [he] at h
  simp at h

theorem w2u_unc (P : String) (res : PathTranslation) (c2 : List Char)
    (hdata : P.data = '\\' :: '\\' :: c2) :
    ∃ q, windows_to_unix P res =
      (q, { res with warnings :=
              res.warnings ++ ["UNC path converted to network path format"] }) := by
  have hs : rustStartsWith P "\\\\" = true := by
    simp [rustStartsWith, hdata, List.isPrefixOf]
  simp only [windows_to_unix, hdata]
  rw [if_neg (show ¬(Char.isAlpha '\\' = true ∧ '\\' = ':') by decide)]
  dsimp only
  rw [if_pos hs]
  exact ⟨_, rfl⟩

example : True := trivial

theorem w2u_drive (P : String) (res : PathTranslation) (c0 : Char) (c2 : List Char)
    (hdata : P.data = c0 :: ':' :: c2) (hc0 : c0.isAlpha = true) :
    ∃ q, windows_to_unix P res = (q, { res with drive_translated := true }) := by
  have hunc : rustStartsWith (get_drive_mapping c0 ++ rustDrop P 2) "\\\\" = false := by
    have hd : (get_drive_mapping c0 ++ rustDrop P 2).data =
        '/' :: ('m' :: 'n' :: 't' :: '/' :: c0.toLower :: (rustDrop P 2).data) := rfl
    rw [rustStartsWith.eq_def, hd]
    simp [List.isPrefixOf]
  simp only [windows_to_unix, hdata, and_true]
  rw [if_pos hc0]
  dsimp only
  rw [if_neg (show ¬(rustStartsWith (get_drive_mapping c0 ++ rustDrop P 2) "\\\\" = true)
    from by rw [hunc]; simp)]
  exact ⟨_, rfl⟩

theorem u2w_home (P : String) (res : PathTranslation) (c2 : List Char)
    (hdata : P.data = '/' :: 'h' :: 'o' :: 'm' :: 'e' :: '/' :: c2) :
    ∃ q, unix_to_windows P res =
      (q, { res with
            drive_translated := true
            warnings := res.warnings ++ ["/home mapped to C:\\Users"] }) := by
  have hmnt : rustStartsWith P "/mnt/" = false := by
    rw [rustStartsWith.eq_def, hdata]
    simp [List.isPrefixOf]
  have hhome : rustStartsWith P "/home/" = true := by
    rw [rustStartsWith.eq_def, hdata]
    simp [List.isPrefixOf]
  simp only [unix_to_windows]
  rw [if_neg (show ¬(rustStartsWith P "/mnt/" = true ∧ P.data.length ≥ 6)
    from fun hc => by rw [hmnt] at hc; simp at hc)]
  rw [if_pos hhome]
  exact ⟨_, rfl⟩

theorem u2w_tilde_slash (P : String) (res : PathTranslation) (c2 : List Char)
    (hdata : P.data = '~' :: '/' :: c2) :
    ∃ q, unix_to_windows P res =
      (q, { res with warnings :=
              res.warnings ++ ["~ translated to %USERPROFILE%"] }) := by
  have hmnt : rustStartsWith P "/mnt/" = false := by
    rw [rustStartsWith.eq_def, hdata]
    simp [List.isPrefixOf]
  have hhome : rustStartsWith P "/home/" = false := by
    rw [rustStartsWith.eq_def, hdata]
    simp [List.isPrefixOf]
  have htl : rustStartsWith P "~/" = true := by
    rw [rustStartsWith.eq_def, hdata]
    simp [List.isPrefixOf]
  simp only [unix_to_windows]
  rw [if_neg (show ¬(rustStartsWith P "/mnt/" = true ∧ P.data.length ≥ 6)
    from fun hc => by rw [hmnt] at hc; simp at hc)]
  rw [if_neg (show ¬(rustStartsWith P "/home/" = true) from by rw [hhome]; simp)]
  rw [if_pos htl]
  exact ⟨_, rfl⟩

theorem u2w_tilde_bare (res : PathTranslation) :
    ∃ q, unix_to_windows "~" res =
      (q, { res with warnings :=
              res.warnings ++ ["~ translated to %USERPROFILE%"] }) := by
  simp only [unix_to_windows]
  rw [if_neg (show ¬(rustStartsWith "~" "/mnt/" = true ∧ ("~" : String).data.length ≥ 6)
    from by decide)]
  rw [if_neg (show ¬(rustStartsWith "~" "/home/" = true) from by decide)]
  rw [if_neg (show ¬(rustStartsWith "~" "~/" = true) from by decide)]
  rw [if_pos (show True from trivial)]
  exact ⟨_, rfl⟩

theorem u2w_root (P : String) (res : PathTranslation) (rest : List Char)
    (hdata : P.data = '/' :: rest)
    (hs2 : rustStartsWith P "//" = false)
    (hnh : rustStartsWith P "/home/" = false)
    (hnm : ¬(rustStartsWith P "/mnt/" = true ∧ P.data.length ≥ 6)) :
    ∃ q, unix_to_windows P res =
      (q, { res with
            drive_translated := true
            warnings := res.warnings ++ ["Root path mapped to C: drive"] }) := by
  have htl : rustStartsWith P "~/" = false := by
    rw [rustStartsWith.eq_def, hdata]
    simp [List.isPrefixOf]
  have hbare : P ≠ "~" := by
    intro h
    rw [h] at hdata
    simp at hdata
  have hs1 : rustStartsWith P "/" = true := by
    rw [rustStartsWith.eq_def, hdata]
    simp [List.isPrefixOf]
  simp only [unix_to_windows]
  rw [if_neg hnm]
  rw [if_neg (show ¬(rustStartsWith P "/home/" = true) from by rw [hnh]; simp)]
  rw [if_neg (show ¬(rustStartsWith P "~/" = true) from by rw [htl]; simp)]
  rw [if_neg hbare]
  rw [if_pos (show rustStartsWith P "/" = true ∧ ¬rustStartsWith P "//" = true
    from ⟨hs1, by rw [hs2]; simp⟩)]
  exact ⟨_, rfl⟩

theorem u2w_network (P : String) (res : PathTranslation) (c2 : List Char)
    (hdata : P.data = '/' :: '/' :: c2) :
    ∃ q, unix_to_windows P res = (q, res) := by
  have hmnt : rustStartsWith P "/mnt/" = false := by
    rw [rustStartsWith.eq_def, hdata]
    simp [List.isPrefixOf]
  have hnh : rustStartsWith P "/home/" = false := by
    rw [rustStartsWith.eq_def, hdata]
    simp [List.isPrefixOf]
  have htl : rustStartsWith P "~/" = false := by
    rw [rustStartsWith.eq_def, hdata]
    simp [List.isPrefixOf]
  have hbare : P ≠ "~" := by
    intro h
    rw [h] at hdata
    simp at hdata
  have hs2 : rustStartsWith P "//" = true := by
    rw [rustStartsWith.eq_def, hdata]
    simp [List.isPrefixOf]
  simp only [unix_to_windows]
  rw [if_neg (show ¬(rustStartsWith P "/mnt/" = true ∧ P.data.length ≥ 6)
    from fun hc => by rw [hmnt] at hc; simp at hc)]
  rw [if_neg (show ¬(rustStartsWith P "/home/" = true) from by rw [hnh]; simp)]
  rw [if_neg (show ¬(rustStartsWith P "~/" = true) from by rw [htl]; simp)]
  rw [if_neg hbare]
  rw [if_neg (show ¬(rustStartsWith P "/" = true ∧ ¬rustStartsWith P "//" = true)
    from fun hc => by rw [hs2] at hc; exact hc.2 rfl)]
  rw [if_pos hs2]
  exact ⟨_, rfl⟩

theorem translate_path_w2u_eq (path : String) (t : Os) (r : PathTranslation)
    (ht : t.is_unix_like = true) (hne : rustTrim path ≠ "")
    (hok : translate_path path Os.Windows t = .ok r) :
    r = { (windows_to_unix (rustTrim path)
            (PathTranslation.new "" (rustTrim path) Os.Windows t)).2 with
          path := (windows_to_unix (rustTrim path)
            (PathTranslation.new "" (rustTrim path) Os.Windows t)).1 } := by
  have hft : (Os.Windows : Os) ≠ t := by
    intro h
    rw [← h] at ht
    simp [Os.is_unix_like] at ht
  simp only [translate_path] at hok
  rw [if_neg hne, if_neg hft, if_pos ⟨trivial, ht⟩] at hok
  cases hok
  rfl

theorem translate_path_u2w_eq (path : String) (f : Os) (r : PathTranslation)
    (hf : f.is_unix_like = true) (hne : rustTrim path ≠ "")
    (hok : translate_path path f Os.Windows = .ok r) :
    r = { (unix_to_windows (rustTrim path)
            (PathTranslation.new "" (rustTrim path) f Os.Windows)).2 with
          path := (unix_to_windows (rustTrim path)
            (PathTranslation.new "" (rustTrim path) f Os.Windows)).1 } := by
  have hft : f ≠ Os.Windows := by
    intro h
    rw [h] at hf
    simp [Os.is_unix_like] at hf
  simp only [translate_path] at hok
  rw [if_neg hne, if_neg hft,
    if_neg (show ¬(f = Os.Windows ∧ Os.is_unix_like Os.Windows = true)
      from fun hc => absurd hc.2 (by decide)),
    if_pos ⟨hf, trivial⟩] at hok
  cases hok
  rfl

/-- C7 counterexample: the drive-letter heuristic fires (`drive_translated`)
yet the warning list is empty. -/
theorem drive_heuristic_is_silent :
    translate_path "C:\\Users\\john" Os.Windows Os.Linux =
      .ok ⟨"/mnt/c/Users/john", "C:\\Users\\john", .Windows, .Linux, true, []⟩ := by
  decide

/-- C7 amended: of the heuristic path-translation branches, exactly the
UNC→network-prefix, `/home`→`C:\Users`, `~`→`%USERPROFILE%` and
root→`C:` conventions emit a warning; the drive-letter↔mount-point and
`//`↔`\\` conversions are silent. -/
theorem path_heuristic_warnings :
    (∀ (path : String) (t : Os) (r : PathTranslation),
      t.is_unix_like = true →
      rustStartsWith (rustTrim path) "\\\\" = true →
      translate_path path Os.Windows t = .ok r →
      r.warnings = ["UNC path converted to network path format"])
    ∧ (∀ (path : String) (f : Os) (r : PathTranslation),
      f.is_unix_like = true →
      rustStartsWith (rustTrim path) "/home/" = true →
      translate_path path f Os.Windows = .ok r →
      r.warnings = ["/home mapped to C:\\Users"])
    ∧ (∀ (path : String) (f : Os) (r : PathTranslation),
      f.is_unix_like = true →
      (rustStartsWith (rustTrim path) "~/" = true ∨ rustTrim path = "~") →
      translate_path path f Os.Windows = .ok r →
      r.warnings = ["~ translated to %USERPROFILE%"])
    ∧ (∀ (path : String) (f : Os) (r : PathTranslation),
      f.is_unix_like = true →
      rustStartsWith (rustTrim path) "/" = true →
      rustStartsWith (rustTrim path) "//" = false →
      rustStartsWith (rustTrim path) "/home/" = false →
      ¬(rustStartsWith (rustTrim path) "/mnt/" = true ∧ (rustTrim path).data.length ≥ 6) →
      translate_path path f Os.Windows = .ok r →
      r.warnings = ["Root path mapped to C: drive"])
    ∧ (∀ (path : String) (t : Os) (r : PathTranslation) (c0 : Char) (c2 : List Char),
      t.is_unix_like = true →
      (rustTrim path).data = c0 :: ':' :: c2 →
      c0.isAlpha = true →
      translate_path path Os.Windows t = .ok r →
      r.warnings = [] ∧ r.drive_translated = true)
    ∧ (∀ (path : String) (f : Os) (r : PathTranslation),
      f.is_unix_like = true →
      rustStartsWith (rustTrim path) "//" = true →
      translate_path path f Os.Windows = .ok r →
      r.warnings = []) := by
  refine ⟨?_, ?_, ?_, ?_, ?_, ?_⟩
  · intro path t r ht hs hok
    obtain ⟨rest, hdata⟩ := startsWith_shape _ _ hs
    simp only [String.data] at hdata
    have hne := ne_empty_of_data_cons _ _ _ hdata
    obtain ⟨q, hq⟩ := w2u_unc (rustTrim path)
      (PathTranslation.new "" (rustTrim path) Os.Windows t) rest hdata
    rw [translate_path_w2u_eq path t r ht hne hok, hq]
    rfl
  · intro path f r hf hs hok
    obtain ⟨rest, hdata⟩ := startsWith_shape _ _ hs
    simp only [String.data] at hdata
    have hne := ne_empty_of_data_cons _ _ _ hdata
    obtain ⟨q, hq⟩ := u2w_home (rustTrim path)
      (PathTranslation.new "" (rustTrim path) f Os.Windows) rest hdata
    rw [translate_path_u2w_eq path f r hf hne hok, hq]
    rfl
  · intro path f r hf hs hok
    rcases hs with hs | hs
    · obtain ⟨rest, hdata⟩ := startsWith_shape _ _ hs
      simp only [String.data] at hdata
      have hne := ne_empty_of_data_cons _ _ _ hdata
      obtain ⟨q, hq⟩ := u2w_tilde_slash (rustTrim path)
        (PathTranslation.new "" (rustTrim path) f Os.Windows) rest hdata
      rw [translate_path_u2w_eq path f r hf hne hok, hq]
      rfl
    · have hne : rustTrim path ≠ "" := by rw [hs]; decide
      obtain ⟨q, hq⟩ := u2w_tilde_bare
        (PathTranslation.new "" "~" f Os.Windows)
      rw [translate_path_u2w_eq path f r hf hne hok, hs, hq]
      rfl
  · intro path f r hf hs1 hs2 hnh hnm hok
    obtain ⟨rest, hdata⟩ := startsWith_shape _ _ hs1
    simp only [String.data] at hdata
    have hne := ne_empty_of_data_cons _ _ _ hdata
    obtain ⟨q, hq⟩ := u2w_root (rustTrim path)
      (PathTranslation.new "" (rustTrim path) f Os.Windows) rest hdata hs2 hnh hnm
    rw [translate_path_u2w_eq path f r hf hne hok, hq]
    rfl
  · intro path t r c0 c2 ht hdata hc0 hok
    have hne := ne_empty_of_data_cons _ _ _ hdata
    obtain ⟨q, hq⟩ := w2u_drive (rustTrim path)
      (PathTranslation.new "" (rustTrim path) Os.Windows t) c0 c2 hdata hc0
    rw [translate_path_w2u_eq path t r ht hne hok, hq]
    exact ⟨rfl, rfl⟩
  · intro path f r hf hs hok
    obtain ⟨rest, hdata⟩ := startsWith_shape _ _ hs
    simp only [String.data] at hdata
    have hne := ne_empty_of_data_cons _ _ _ hdata
    obtain ⟨q, hq⟩ := u2w_network (rustTrim path)
      (PathTranslation.new "" (rustTrim path) f Os.Windows) rest hdata
    rw [translate_path_u2w_eq path f r hf hne hok, hq]
    rfl

/-- C7 witness: the warning laws applied to the repository's own examples. -/
theorem path_heuristic_warnings_witness :
    (∃ r, translate_path "/home/john/Documents" Os.Linux Os.Windows = .ok r
      ∧ r.warnings = ["/home mapped to C:\\Users"])
    ∧ (∃ r, translate_path "\\\\server\\share\\file.txt" Os.Windows Os.Linux = .ok r
      ∧ r.warnings = ["UNC path converted to network path format"]) := by
  constructor
  · refine ⟨⟨"C:\\Users\\john\\Documents", "/home/john/Documents", .Linux, .Windows,
      true, ["/home mapped to C:\\Users"]⟩, by decide, ?_⟩
    exact path_heuristic_warnings.2.1 "/home/john/Documents" Os.Linux _
      (by decide) (by decide) (by decide)
  · refine ⟨⟨"//server/share/file.txt", "\\\\server\\share\\file.txt", .Windows, .Linux,
      false, ["UNC path converted to network path format"]⟩, by decide, ?_⟩
    exact path_heuristic_warnings.1 "\\\\server\\share\\file.txt" Os.Linux _
      (by decide) (by decide) (by decide)

/-! ## C6: sudo handling in package translation -/

theorem pkg_flags_fold_requires_sudo (fm : Option (List PackageFlagMapping))
    (to_pm : PackageManager) (op : PackageOperation) (l : List String) :
    ∀ acc : List String × PackageTranslationResult,
    (l.foldl (pkgTranslateFlagsStep fm to_pm op) acc).2.requires_sudo =
      acc.2.requires_sudo := by
  induction l with
  | nil => intro acc; rfl
  | cons flag rest ih =>
    intro acc
    rw [List.foldl_cons, ih]
    rw [pkgTranslateFlagsStep.eq_def]
    split <;> rfl

theorem pkg_translate_flags_requires_sudo (flags : List String)
    (from_pm to_pm : PackageManager) (op : PackageOperation)
    (res : PackageTranslationResult) :
    (package_manager.translate_flags flags from_pm to_pm op res).2.requires_sudo =
      res.requires_sudo := by
  rw [package_manager.translate_flags, pkg_flags_fold_requires_sudo]

theorem string_data_append (a b : String) : (a ++ b).data = a.data ++ b.data := rfl

theorem isPrefixOf_append_false (p c a : List Char)
    (hlen : p.length ≤ c.length) (hpf : p.isPrefixOf c = false) :
    p.isPrefixOf (c ++ a) = false := by
  rw [Bool.eq_false_iff]
  intro h
  rw [List.isPrefixOf_iff_prefix, List.prefix_iff_eq_take,
    List.take_append_eq_append_take, Nat.sub_eq_zero_of_le hlen,
    List.take_zero, List.append_nil, ← List.prefix_iff_eq_take] at h
  rw [Bool.eq_false_iff] at hpf
  exact hpf (List.isPrefixOf_iff_prefix.mpr h)

theorem startsWith_append_self (p s : String) : rustStartsWith (p ++ s) p = true := by
  rw [rustStartsWith.eq_def, List.isPrefixOf_iff_prefix, string_data_append]
  exact List.prefix_append _ _

/-- Every command in the operation table is at least five characters and never
begins with `sudo `. -/
theorem op_commands_no_sudo :
    ∀ e ∈ OPERATION_MAPPINGS,
      "sudo ".data.isPrefixOf e.2.command.data = false
      ∧ 5 ≤ e.2.command.data.length := by decide

example : True := trivial

theorem startsWith_sudo_false (mc x y : String)
    (hnp : "sudo ".data.isPrefixOf mc.data = false) (hlen : 5 ≤ mc.data.length) :
    rustStartsWith ((("" ++ mc) ++ x) ++ y) "sudo " = false := by
  rw [rustStartsWith.eq_def]
  have hd : ((("" ++ mc) ++ x) ++ y).data = mc.data ++ (x.data ++ y.data) := by
    simp [string_data_append]
  rw [hd]
  exact isPrefixOf_append_false _ _ _
    (by rw [show ("sudo " : String).data.length = 5 from rfl]; exact hlen) hnp

/-- C6 amended: every successful cross-manager translation carries the target
operation metadata in `requires_sudo`, and the output begins with `sudo ` iff
the trimmed input did AND that metadata requires sudo. (The same-manager
passthrough bypasses this policy: see the counterexample.) -/
theorem pkg_sudo_policy (input : String) (from_pm to_pm : PackageManager)
    (res : PackageTranslationResult)
    (hft : from_pm ≠ to_pm)
    (hok : translate_package_command input from_pm to_pm = .ok res) :
    ∃ pm op args mapping,
      parse_package_command (rustTrim input) = .ok (pm, op, args)
      ∧ operationMappingsGet (OperationKey.mk to_pm op) = some mapping
      ∧ res.requires_sudo = mapping.requires_sudo
      ∧ (rustStartsWith res.command "sudo " = true ↔
          (rustStartsWith (rustTrim input) "sudo " = true
           ∧ mapping.requires_sudo = true)) := by
  simp only [translate_package_command] at hok
  by_cases h1 : rustTrim input = ""
  · rw [if_pos h1] at hok
    simp at hok
  rw [if_neg h1, if_neg hft] at hok
  rcases hparse : parse_package_command (rustTrim input) with e | ⟨pm, op, args⟩
  · rw [hparse] at hok
    simp at hok
  rw [hparse] at hok
  dsimp only at hok
  rcases hlook : operationMappingsGet (OperationKey.mk to_pm op) with _ | mapping
  · rw [hlook] at hok
    simp at hok
  rw [hlook] at hok
  dsimp only at hok
  have hmem : ∃ en, en ∈ OPERATION_MAPPINGS ∧ en.2 = mapping := by
    rw [operationMappingsGet] at hlook
    obtain ⟨en, hfind, h2⟩ := Option.map_eq_some'.mp hlook
    exact ⟨en, List.mem_of_find?_eq_some hfind, h2⟩
  obtain ⟨en, hen, hen2⟩ := hmem
  obtain ⟨hnp, hlen⟩ := op_commands_no_sudo en hen
  rw [hen2] at hnp hlen
  refine ⟨pm, op, args, mapping, rfl, hlook, ?_⟩
  rcases hnotes : mapping.notes with _ | notes <;>
    rw [hnotes] at hok <;> dsimp only at hok <;> cases hok <;>
    constructor
  case _ =>
    dsimp only
    rw [pkg_translate_flags_requires_sudo]
  case _ =>
    dsimp only
    by_cases hcond : (rustStartsWith (rustTrim input) "sudo " = true
        ∧ mapping.requires_sudo = true)
    · rw [if_pos hcond, String.append_assoc, String.append_assoc,
        startsWith_append_self]
      exact iff_of_true rfl hcond
    · rw [if_neg hcond, startsWith_sudo_false mapping.command _ _ hnp hlen]
      exact iff_of_false (by simp) hcond
  case _ =>
    dsimp only
    rw [pkg_translate_flags_requires_sudo]
  case _ =>
    dsimp only
    by_cases hcond : (rustStartsWith (rustTrim input) "sudo " = true
        ∧ mapping.requires_sudo = true)
    · rw [if_pos hcond, String.append_assoc, String.append_assoc,
        startsWith_append_self]
      exact iff_of_true rfl hcond
    · rw [if_neg hcond, startsWith_sudo_false mapping.command _ _ hnp hlen]
      exact iff_of_false (by simp) hcond

/-- C6 counterexample: on the same-manager passthrough, the result keeps the
`sudo ` prefix verbatim and reports `requires_sudo = false` even though the
target operation metadata (`apt install`) requires sudo. -/
theorem pkg_same_pm_sudo_mismatch :
    translate_package_command "sudo apt install vim" .Apt .Apt =
      .ok ⟨"sudo apt install vim", "sudo apt install vim", .Apt, .Apt, [], false⟩
    ∧ parse_package_command "sudo apt install vim" = .ok (.Apt, .Install, ["vim"])
    ∧ (operationMappingsGet (OperationKey.mk .Apt .Install)).map (·.requires_sudo) =
        some true
    ∧ rustStartsWith "sudo apt install vim" "sudo " = true := by
  exact ⟨by decide, by decide, by decide, by decide⟩

/-- C6 witness: the sudo policy applied to `sudo apt install vim` (apt → dnf). -/
theorem pkg_sudo_policy_witness :
    ∃ pm op args mapping,
      parse_package_command (rustTrim "sudo apt install vim") = .ok (pm, op, args)
      ∧ operationMappingsGet (OperationKey.mk PackageManager.Dnf op) = some mapping
      ∧ (⟨"sudo dnf install vim", "sudo apt install vim", .Apt, .Dnf, [], true⟩ :
          PackageTranslationResult).requires_sudo = mapping.requires_sudo
      ∧ (rustStartsWith (⟨"sudo dnf install vim", "sudo apt install vim", .Apt, .Dnf,
            [], true⟩ : PackageTranslationResult).command "sudo " = true ↔
          (rustStartsWith (rustTrim "sudo apt install vim") "sudo " = true
           ∧ mapping.requires_sudo = true)) :=
  pkg_sudo_policy "sudo apt install vim" .Apt .Dnf
    ⟨"sudo dnf install vim", "sudo apt install vim", .Apt, .Dnf, [], true⟩
    (by decide) (by decide)
